import Mathlib

/-!
Verification development for the mdmb device-side MDM enrollment simulator
(package `internal/device`: `profiles.go`, `mdmclient.go`).

The Go code is shallowly embedded: pure helpers become Lean functions;
the bbolt-backed stores and the keychain become explicit state threaded
through each operation, together with an append-only event log that
records externally visible effects (keychain writes/deletes, reference
writes, SCEP/MDM network calls, log lines).  Fallible Go functions
return `Except String α` carrying the exact `errors.New` message of the
source.  Go machine integers that matter (`byte` conversions in the
key-usage extension) are `Nat` with explicit `% 256`.
-/

namespace Mdmb

/-! ## Data model (from `cfgprofiles` payload records as used by the source) -/

/-- Common payload fields (`cfgprofiles.Payload`). -/
structure Payload where
  PayloadIdentifier : String
  PayloadUUID : String
  PayloadType : String
deriving DecidableEq, Repr

/-- `cfgprofiles.SCEPPayload.PayloadContent` fields read by the source. -/
structure SCEPContent where
  KeyType : String
  KeySize : Int
  KeyUsage : Nat
  Challenge : String
  URL : String
  Name : String
  CAFingerprint : List Nat
  Subject : List (List (List String))
deriving DecidableEq, Repr

/-- `cfgprofiles.SCEPPayload`. -/
structure SCEPPayload where
  Payload : Payload
  PayloadContent : SCEPContent
deriving DecidableEq, Repr

/-- `cfgprofiles.MDMPayload` fields read by the source. -/
structure MDMPayload where
  Payload : Payload
  IdentityCertificateUUID : String
  ServerURL : String
  CheckInURL : String
  SignMessage : Bool
deriving DecidableEq, Repr

/-- The closed payload variant dispatched on by the installer. -/
inductive ProfilePayload where
  | scep (pl : SCEPPayload)
  | mdm (pl : MDMPayload)
  | other (pl : Payload)
deriving DecidableEq, Repr

/-- `cfgprofiles.Profile` as read by the source. -/
structure Profile where
  PayloadIdentifier : String
  PayloadContent : List ProfilePayload
deriving DecidableEq, Repr

/-- Common-fields accessor (`cfgprofiles.CommonPayload`). -/
def ProfilePayload.common : ProfilePayload → Payload
  | .scep pl => pl.Payload
  | .mdm pl => pl.Payload
  | .other pl => pl

/-- Modelled from the spec: the external `cfgprofiles` accessor
`Profile.MDMPayloads` extracts all MDM-type payload entries in order. -/
def Profile.MDMPayloads (p : Profile) : List MDMPayload :=
  p.PayloadContent.filterMap fun
    | .mdm pl => some pl
    | _ => none

/-- Modelled from the spec: the external `cfgprofiles` accessor
`Profile.SCEPPayloads` extracts all SCEP-type payload entries in order. -/
def Profile.SCEPPayloads (p : Profile) : List SCEPPayload :=
  p.PayloadContent.filterMap fun
    | .scep pl => some pl
    | _ => none

/-! ## CSR builder: key generation (`keyFromSCEPProfilePayload`) -/

/-- Modelled from the spec: `rsa.GenerateKey` (external X.509/RSA
primitive, assumed correct) returns a fresh RSA private key of the
requested bit size; we represent the key by its size. -/
structure RSAKey where
  size : Nat
deriving DecidableEq, Repr

/-- `const defaultRSAKeySize = 1024` -/
def defaultRSAKeySize : Nat := 1024

/-- `keyFromSCEPProfilePayload` from the source: reject a set non-RSA
`KeyType`; use `KeySize` when positive, else the 1024-bit default. -/
def keyFromSCEPProfilePayload (pl : SCEPPayload) : Except String RSAKey :=
  let plc := pl.PayloadContent
  if plc.KeyType ≠ "" ∧ plc.KeyType ≠ "RSA" then
    .error "only RSA keys supported"
  else
    let keySize : Nat := if plc.KeySize > 0 then plc.KeySize.toNat else defaultRSAKeySize
    .ok ⟨keySize⟩

/-! ## CSR builder: key-usage extension (`reverseBitsInAByte`,
`asn1BitLength`, `newKeyUsageExtension`) -/

/-- `reverseBitsInAByte` from the source; Go `byte` arithmetic is `Nat`
with explicit `% 256` where shifts overflow a byte. -/
def reverseBitsInAByte (inp : Nat) : Nat :=
  let b1 := (inp >>> 4) ||| ((inp <<< 4) % 256)
  let b2 := ((b1 >>> 2) &&& 0x33) ||| (((b1 <<< 2) % 256) &&& 0xcc)
  let b3 := ((b2 >>> 1) &&& 0x55) ||| (((b2 <<< 1) % 256) &&& 0xaa)
  b3

/-- Inner loop of `asn1BitLength`: the first bit index in `0..7` set in
byte `b` (`(b>>bit)&1 == 1`), if any. -/
def lowestSetBitUnder8 (b : Nat) : Option Nat :=
  (List.range 8).find? fun bit => ((b >>> bit) &&& 1) == 1

/-- Outer loop of `asn1BitLength`: scan bytes last-to-first, carrying
the current bit length. -/
def asn1BitLengthAux : List Nat → Nat → Nat
  | [], _ => 0
  | b :: rest, bitLen =>
    match lowestSetBitUnder8 b with
    | some bit => bitLen - bit
    | none => asn1BitLengthAux rest (bitLen - 8)

/-- `asn1BitLength` from the source: the bit length of a BIT STRING
after trimming trailing all-zero bits. -/
def asn1BitLength (bitString : List Nat) : Nat :=
  asn1BitLengthAux bitString.reverse (8 * bitString.length)

/-- The ASN.1 BIT STRING produced by `newKeyUsageExtension` before DER
marshalling (`asn1.Marshal` is the external `encoding/asn1`
collaborator): the raw bytes plus the reported bit length. -/
structure Extension where
  oid : List Nat
  critical : Bool
  bytes : List Nat
  bitLength : Nat
deriving DecidableEq, Repr

/-- `newKeyUsageExtension` from the source: OID 2.5.29.15, critical,
bytes are the two key-usage bytes bit-reversed, second byte kept only
when nonzero, bit length trimmed by `asn1BitLength`. -/
def newKeyUsageExtension (keyUsage : Nat) : Extension :=
  let a0 := reverseBitsInAByte (keyUsage % 256)
  let a1 := reverseBitsInAByte ((keyUsage >>> 8) % 256)
  let bitString := if a1 ≠ 0 then [a0, a1] else [a0]
  { oid := [2, 5, 29, 15]
    critical := true
    bytes := bitString
    bitLength := asn1BitLength bitString }

/-- Decoder written from the spec's words, for the round-trip claim:
read the first `min t 8` bits of one BIT STRING byte under the ASN.1
convention (string bit `j` is bit `7-j` of the byte) back into mask
bits `0..7`. -/
def decodeByte (b t : Nat) : Nat :=
  (List.range (min t 8)).foldr (fun j acc => ((b >>> (7 - j)) &&& 1) * 2 ^ j + acc) 0

/-- Decoder written from the spec's words: decode a BIT STRING (bytes
plus reported bit length) back into a key-usage mask, eight string bits
per byte. -/
def decodeBitString : List Nat → Nat → Nat
  | [], _ => 0
  | b :: rest, t => decodeByte b t + 256 * decodeBitString rest (t - 8)

/-! ## CSR builder: device-variable substitution (`replaceSCEPVars`) -/

/-- The `%ComputerName%` device variable. -/
def scepVarComputerName : List Char := "%ComputerName%".data

/-- The `%HardwareUUID%` device variable. -/
def scepVarHardwareUUID : List Char := "%HardwareUUID%".data

/-- The `%SerialNumber%` device variable. -/
def scepVarSerialNumber : List Char := "%SerialNumber%".data

/-- The Go `strings.Replacer` built in `replaceSCEPVars`, specialised to
its three fixed patterns (which never match at the same position, as
they differ at their second character): scan left to right, replace a
pattern occurrence and continue after it, copy any other character.
Recursion is on a fuel argument that starts at the input length and
decreases by exactly one while the input shrinks by at least one
character, so the out-of-fuel arm is unreachable and the function
computes by `rfl`/`decide`. -/
def goReplaceF (cn hw sn : List Char) : Nat → List Char → List Char
  | _, [] => []
  | 0, s => s
  | fuel + 1, c :: rest =>
    if scepVarComputerName.isPrefixOf (c :: rest) then
      cn ++ goReplaceF cn hw sn fuel ((c :: rest).drop scepVarComputerName.length)
    else if scepVarHardwareUUID.isPrefixOf (c :: rest) then
      hw ++ goReplaceF cn hw sn fuel ((c :: rest).drop scepVarHardwareUUID.length)
    else if scepVarSerialNumber.isPrefixOf (c :: rest) then
      sn ++ goReplaceF cn hw sn fuel ((c :: rest).drop scepVarSerialNumber.length)
    else
      c :: goReplaceF cn hw sn fuel rest

/-- The replacer on a whole character list. -/
def goReplace (cn hw sn s : List Char) : List Char :=
  goReplaceF cn hw sn s.length s

/-- Device identity fields plus the mutable enrollment cross-references
(`Device` aggregate root fields used by the source). -/
structure Device where
  UDID : String
  Serial : String
  ComputerName : String
  MDMProfileIdentifier : String
  MDMIdentityKeychainUUID : String
deriving DecidableEq, Repr

/-- `replaceSCEPVars` from the source: apply the replacer built from
the device's ComputerName/UDID/Serial to every input string. -/
def replaceSCEPVars (device : Device) (istrs : List String) : List String :=
  istrs.map fun istr =>
    ⟨goReplace device.ComputerName.data device.UDID.data device.Serial.data istr.data⟩

/-! ## CSR builder: subject construction (`csrFromSCEPProfilePayload`) -/

/-- The CSR template handed to the external
`x509util.CreateCertificateRequest`; the external primitive is assumed
correct, so the CSR is represented by the template the source fills. -/
structure CSR where
  challengePassword : String
  country : List String
  locality : List String
  province : List String
  organization : List String
  organizationalUnit : List String
  commonName : String
  keyUsageExtension : Extension
deriving DecidableEq, Repr

/-- One step of the subject-attribute loop in
`csrFromSCEPProfilePayload`: update the template for one
`(OID-tag, values…)` entry or fail on an unhandled tag. -/
def applySubjectONV (device : Device) (csr : CSR) (onv : List String) : Except String CSR :=
  if onv.length < 2 then
    .error ("invalid OID in SCEP payload: " ++ toString onv)
  else
    let values := replaceSCEPVars device onv.tail
    match onv.head? with
    | some "C" => .ok { csr with country := values }
    | some "L" => .ok { csr with locality := values }
    | some "ST" => .ok { csr with province := values }
    | some "O" => .ok { csr with organization := values }
    | some "OU" => .ok { csr with organizationalUnit := values }
    | some "CN" => .ok { csr with commonName := values.headD "" }
    | _ => .error ("unhandled OID in SCEP payload: " ++ toString onv)

/-- Fold `applySubjectONV` over one subject attribute group. -/
def applySubjectGroup (device : Device) (csr : CSR) : List (List String) → Except String CSR
  | [] => .ok csr
  | onv :: rest => do
    let csr' ← applySubjectONV device csr onv
    applySubjectGroup device csr' rest

/-- Fold `applySubjectGroup` over all subject attribute groups. -/
def applySubject (device : Device) (csr : CSR) : List (List (List String)) → Except String CSR
  | [] => .ok csr
  | grp :: rest => do
    let csr' ← applySubjectGroup device csr grp
    applySubject device csr' rest

/-- `csrFromSCEPProfilePayload` from the source: key-usage extension
(default Digital Signature = bit 0), subject attributes with
device-variable substitution, CN defaulting to the payload identifier. -/
def csrFromSCEPProfilePayload (pl : SCEPPayload) (device : Device) : Except String CSR := do
  let plc := pl.PayloadContent
  let keyUsage := if plc.KeyUsage ≠ 0 then plc.KeyUsage else 1
  let extn := newKeyUsageExtension keyUsage
  let csr0 : CSR :=
    { challengePassword := plc.Challenge
      country := [], locality := [], province := []
      organization := [], organizationalUnit := []
      commonName := ""
      keyUsageExtension := extn }
  let csr ← applySubject device csr0 plc.Subject
  if csr.commonName = "" then
    .ok { csr with commonName := pl.Payload.PayloadIdentifier }
  else
    .ok csr

/-! ## Persistent state: keychain, profile store, reference store

The bbolt-backed stores become explicit state.  Externally visible
effects (keychain writes/deletes, reference writes, network calls, log
lines) are recorded in an append-only event log so that ordering
properties can be stated. -/

/-- Keychain item class tags (`ClassKey`, `ClassCertificate`,
`ClassIdentity`). -/
inductive KCClass where
  | key
  | certificate
  | identity
deriving DecidableEq, Repr

/-- An issued X.509 certificate, represented opaquely. -/
structure Cert where
  id : Nat
deriving DecidableEq, Repr

/-- Modelled from the spec: keychain items (`KeychainItem`, missing
from src/) are persisted records of class Key, Certificate or Identity;
an Identity carries the UUIDs of its Key and Certificate items
(spec §3, §4.1). -/
structure KeychainItem where
  UUID : String
  Class : KCClass
  Key : Option RSAKey := none
  Certificate : Option Cert := none
  IdentityKeyUUID : String := ""
  IdentityCertificateUUID : String := ""
deriving DecidableEq, Repr

/-- Externally visible effects of one pass, in occurrence order. -/
inductive Event where
  | scepRequest (url : String)
  | authenticateCall
  | tokenUpdateCall
  | unenrollCall
  | keychainSave (uuid : String) (cls : KCClass)
  | keychainDelete (uuid : String) (cls : KCClass)
  | refSave (key value : String)
  | refRemove (key : String)
  | deviceSaved
  | logged (msg : String)
deriving DecidableEq, Repr

/-- The persisted world of one device scope: device record, keychain
bucket, profiles bucket, payload-reference bucket, a counter feeding
generated UUIDs, and the event log. -/
structure World where
  device : Device
  keychain : List (String × KeychainItem)
  profiles : List (String × Profile)
  refs : List (String × String)
  counter : Nat
  events : List Event
deriving DecidableEq, Repr

/-- Association-list lookup (bbolt bucket `Get`): first binding wins. -/
def alookup {α : Type} : List (String × α) → String → Option α
  | [], _ => none
  | (k, v) :: rest, key => if k = key then some v else alookup rest key

/-- Association-list overwrite (bbolt bucket `Put`). -/
def aset {α : Type} : List (String × α) → String → α → List (String × α)
  | [], key, v => [(key, v)]
  | (k, w) :: rest, key, v =>
    if k = key then (k, v) :: rest else (k, w) :: aset rest key v

/-- Association-list delete (bbolt bucket `Delete`). -/
def adel {α : Type} : List (String × α) → String → List (String × α)
  | [], _ => []
  | (k, v) :: rest, key => if k = key then adel rest key else (k, v) :: adel rest key

/-- A stateful, fallible operation on the world. -/
def M (α : Type) : Type := World → World × Except String α

/-- Return without touching the world. -/
def mOk {α : Type} (a : α) : M α := fun w => (w, .ok a)

/-- Fail without touching the world. -/
def mErr {α : Type} (e : String) : M α := fun w => (w, .error e)

/-- Sequencing with Go-style early return on error. -/
def mbind {α β : Type} (x : M α) (f : α → M β) : M β := fun w =>
  match x w with
  | (w', .ok a) => f a w'
  | (w', .error e) => (w', .error e)

/-- Append one event to the log. -/
def logEvent (e : Event) (w : World) : World :=
  { w with events := w.events ++ [e] }

/-- Modelled from the spec: generated identifiers are unique per device
scope (spec §4.1); drawn from the world's counter. -/
def genUUID (n : Nat) : String := "uuid-" ++ toString n

/-! ### Keychain operations

Modelled from the spec: the keychain item store (`NewKeychainItem`,
`KeychainItem.Save`, `KeychainItem.Delete`, `LoadKeychainItem`) is
missing from src/; spec §4.1 gives its contract: create generates a
unique identifier, load is item-or-Not-Found and transitively validates
an Identity item's references, delete removes the record. -/

/-- `NewKeychainItem`: fresh item of the given class with a generated
UUID (not yet persisted). -/
def NewKeychainItem (cls : KCClass) : M KeychainItem := fun w =>
  ({ w with counter := w.counter + 1 }, .ok { UUID := genUUID w.counter, Class := cls })

/-- `KeychainItem.Save`: persist the item under its UUID. -/
def keychainSaveItem (kci : KeychainItem) : M Unit := fun w =>
  (logEvent (.keychainSave kci.UUID kci.Class)
    { w with keychain := aset w.keychain kci.UUID kci }, .ok ())

/-- `LoadKeychainItem`: item or Not-Found; an Identity item's Key and
Certificate references are validated transitively (spec §4.1). -/
def LoadKeychainItem (uuid : String) : M KeychainItem := fun w =>
  match alookup w.keychain uuid with
  | none => (w, .error ("keychain item not found: " ++ uuid))
  | some kci =>
    if kci.Class = .identity ∧
        (alookup w.keychain kci.IdentityKeyUUID = none ∨
         alookup w.keychain kci.IdentityCertificateUUID = none) then
      (w, .error ("broken identity reference: " ++ uuid))
    else
      (w, .ok kci)

/-- `KeychainItem.Delete`: remove the record. -/
def keychainDeleteItem (kci : KeychainItem) : M Unit := fun w =>
  (logEvent (.keychainDelete kci.UUID kci.Class)
    { w with keychain := adel w.keychain kci.UUID }, .ok ())

/-! ### Profile store operations (`ProfileStore`, keyed by device UDID) -/

/-- Profile bucket key: `fmt.Sprintf("%s_%s", ps.ID, profileID)`. -/
def profileKey (deviceUDID profileID : String) : String :=
  deviceUDID ++ "_" ++ profileID

/-- Reference bucket key:
`fmt.Sprintf("%s_%s_%s_%s", profileID, pld.PayloadIdentifier, pld.PayloadUUID, ekey)`. -/
def refKey (profileID : String) (pld : Payload) (ekey : String) : String :=
  profileID ++ "_" ++ pld.PayloadIdentifier ++ "_" ++ pld.PayloadUUID ++ "_" ++ ekey

/-- `ProfileStore.Load`: Not-Found on a missing document (the stored
document is modelled as the parsed profile, so the zero-length and
unmarshal failures of the source cannot arise). -/
def loadProfileM (profileID : String) : M Profile := fun w =>
  match alookup w.profiles (profileKey w.device.UDID profileID) with
  | none => (w, .error ("missing or zero-length profile: " ++ profileID))
  | some p => (w, .ok p)

/-- `ProfileStore.persistProfile`: store the document under its id
(the empty-input check of the source cannot fire on a parsed profile). -/
def persistProfileM (p : Profile) (profileID : String) : M Unit := fun w =>
  ({ w with profiles := aset w.profiles (profileKey w.device.UDID profileID) p }, .ok ())

/-- `ProfileStore.removeProfile`. -/
def removeProfileDocM (profileID : String) : M Unit := fun w =>
  ({ w with profiles := adel w.profiles (profileKey w.device.UDID profileID) }, .ok ())

/-- `ProfileStore.savePayloadRefString`: rejects an empty value. -/
def savePayloadRefStringM (profileID : String) (pld : Payload) (ekey value : String) : M Unit :=
  fun w =>
    if value = "" then (w, .error "no payload ref value to save")
    else
      (logEvent (.refSave (refKey profileID pld ekey) value)
        { w with refs := aset w.refs (refKey profileID pld ekey) value }, .ok ())

/-- `ProfileStore.loadPayloadRefString`: the bbolt View closure returns
nil, so the error component is always `.ok`; the missing bucket-get
helper `BucketGetString` is Modelled from the spec (§4.2, §6) as
returning the stored string, empty when the key is absent — the
distinguishable non-error "no existing reference" outcome. -/
def loadPayloadRefStringM (profileID : String) (pld : Payload) (ekey : String) : M String :=
  fun w => (w, .ok ((alookup w.refs (refKey profileID pld ekey)).getD ""))

/-- `ProfileStore.removePayloadRefString`: a put of the empty string,
which deletes the entry (`BucketPutOrDeleteString`). -/
def removePayloadRefStringM (profileID : String) (pld : Payload) (ekey : String) : M Unit :=
  fun w =>
    (logEvent (.refRemove (refKey profileID pld ekey))
      { w with refs := adel w.refs (refKey profileID pld ekey) }, .ok ())

/-- The installed profile ids of this device scope: prefix scan of the
profiles bucket with the `{udid}_` prefix stripped
(`BucketGetKeysWithPrefix`, Modelled from the spec §6). -/
def listUUIDs (w : World) : List String :=
  w.profiles.filterMap fun kv =>
    if (w.device.UDID ++ "_").data.isPrefixOf kv.1.data then
      some ⟨kv.1.data.drop (w.device.UDID ++ "_").length⟩
    else none

/-- `ProfileStore.ListUUIDs`. -/
def listUUIDsM : M (List String) := fun w => (w, .ok (listUUIDs w))

/-! ### External collaborators (SCEP transport, MDM checkin) -/

/-- Decidable equality for `Except`, used to evaluate pass outcomes on
concrete inputs. -/
instance instDecEqExcept {ε α : Type} [DecidableEq ε] [DecidableEq α] :
    DecidableEq (Except ε α) := fun x y =>
  match x, y with
  | .error a, .error b =>
    if h : a = b then .isTrue (congrArg Except.error h)
    else .isFalse (fun he => h (Except.error.inj he))
  | .ok a, .ok b =>
    if h : a = b then .isTrue (congrArg Except.ok h)
    else .isFalse (fun he => h (Except.ok.inj he))
  | .error _, .ok _ => .isFalse (fun he => Except.noConfusion he)
  | .ok _, .error _ => .isFalse (fun he => Except.noConfusion he)

/-- Outcomes of the external collaborators for one pass: the SCEP
exchange and the MDM checkin calls (spec §6). -/
structure Env where
  scepResult : Except String Cert
  authenticateResult : Except String Unit
  tokenUpdateResult : Except String Unit
  unenrollResult : Except String Unit
deriving DecidableEq, Repr

/-- `scepNewPKCSReq`: one synchronous SCEP enrollment exchange; its
internals (CA cert fetch, fingerprint selection, ephemeral signer,
PKCS envelope) live in the external transport, so the exchange is the
environment's outcome, logged as a network event. -/
def scepNewPKCSReqM (env : Env) (url : String) : M Cert := fun w =>
  (logEvent (.scepRequest url) w, env.scepResult)

/-- Modelled from the spec: the checkin collaborator's `authenticate`
call (spec §6), logged as a network event. -/
def authenticateM (env : Env) : M Unit := fun w =>
  (logEvent .authenticateCall w, env.authenticateResult)

/-- Modelled from the spec: the checkin collaborator's `tokenUpdate`
call (spec §6), logged as a network event. -/
def tokenUpdateM (env : Env) : M Unit := fun w =>
  (logEvent .tokenUpdateCall w, env.tokenUpdateResult)

/-- Modelled from the spec: the checkin collaborator's `unenroll` call
(spec §6), logged as a network event. -/
def unenrollCheckinM (env : Env) : M Unit := fun w =>
  (logEvent .unenrollCall w, env.unenrollResult)

/-- `Device.Save`: the aggregate root's persistence hook; the device
record already lives in the world, so saving is logged. -/
def deviceSaveM : M Unit := fun w => (logEvent .deviceSaved w, .ok ())

/-! ## Payload classification and ordering
(`classifyAndSortProfilePayloads`) -/

/-- `PayloadRequiresNetwork = 1 << iota`. -/
def PayloadRequiresNetwork : Nat := 1

/-- `PayloadRequiresIdentities`. -/
def PayloadRequiresIdentities : Nat := 2

/-- `payloadAndResult`: a payload paired with its capability flags and
the transient installation result. -/
structure PayloadAndResult where
  CommonPayload : Payload
  PayloadRequiresFlags : Nat
  payload : ProfilePayload
  StringResult : String := ""
deriving DecidableEq, Repr

/-- The classification step of `classifyAndSortProfilePayloads`: SCEP
needs network, MDM needs network and identities, anything else neither. -/
def classifyPayload : ProfilePayload → PayloadAndResult
  | .scep pl =>
    { CommonPayload := pl.Payload
      PayloadRequiresFlags := PayloadRequiresNetwork
      payload := .scep pl }
  | .mdm pl =>
    { CommonPayload := pl.Payload
      PayloadRequiresFlags := PayloadRequiresNetwork ||| PayloadRequiresIdentities
      payload := .mdm pl }
  | .other pl =>
    { CommonPayload := pl
      PayloadRequiresFlags := 0
      payload := .other pl }

/-- Stable insertion: the new element goes after every element it is
not strictly less than, preserving the relative order of equals. -/
def insertStable {α : Type} (less : α → α → Bool) (x : α) : List α → List α
  | [] => [x]
  | y :: ys => if less x y then x :: y :: ys else y :: insertStable less x ys

/-- `sort.SliceStable` of the Go standard library, modelled by stable
insertion sort (extensionally equal to any stable sort for the same
`less`). -/
def sortSliceStable {α : Type} (less : α → α → Bool) : List α → List α
  | [] => []
  | x :: xs => insertStable less x (sortSliceStable less xs)

/-- `classifyAndSortProfilePayloads` from the source, with the source's
comparison: with `ascending = true` the comparator is `>` on the
capability flags, with `ascending = false` it is `<`. -/
def classifyAndSortProfilePayloads (p : Profile) (ascending : Bool) : List PayloadAndResult :=
  sortSliceStable
    (fun a b =>
      if ascending then decide (a.PayloadRequiresFlags > b.PayloadRequiresFlags)
      else decide (a.PayloadRequiresFlags < b.PayloadRequiresFlags))
    (p.PayloadContent.map classifyPayload)

/-- `findpayloadAndResultByUUID`: first record whose common payload has
the given UUID. -/
def findpayloadAndResultByUUID : List PayloadAndResult → String → Option PayloadAndResult
  | [], _ => none
  | v :: rest, uuid =>
    if v.CommonPayload.PayloadUUID = uuid then some v
    else findpayloadAndResultByUUID rest uuid

/-! ## SCEP payload installation and removal -/

/-- `installSCEPPayload` from the source, in source order: generate the
key, build the CSR, then consult the payload-reference store; since
`loadPayloadRefString` never returns an error, the reuse branch is
always taken and the issuance branch below it is unreachable. -/
def installSCEPPayloadM (env : Env) (profileID : String) (scepPayload : SCEPPayload) :
    M String := fun w =>
  match keyFromSCEPProfilePayload scepPayload with
  | .error e => (w, .error e)
  | .ok key =>
    match csrFromSCEPProfilePayload scepPayload w.device with
    | .error e => (w, .error e)
    | .ok _csr =>
      match loadPayloadRefStringM profileID scepPayload.Payload "keychain_identity" w with
      | (w1, .ok existingUuid) =>
        (logEvent (.logged ("reusing existing (pending?) uuid " ++ existingUuid)) w1,
          .ok existingUuid)
      | (w1, .error _) =>
        -- the issuance path of the source (`err != nil` from loadRef),
        -- unreachable because the View closure always returns nil
        (mbind (scepNewPKCSReqM env scepPayload.PayloadContent.URL) fun cert =>
         mbind (NewKeychainItem .key) fun kciKey0 =>
         let kciKey := { kciKey0 with Key := some key }
         mbind (keychainSaveItem kciKey) fun _ =>
         mbind (NewKeychainItem .certificate) fun kciCert0 =>
         let kciCert := { kciCert0 with Certificate := some cert }
         mbind (keychainSaveItem kciCert) fun _ =>
         mbind (NewKeychainItem .identity) fun kciID0 =>
         let kciID := { kciID0 with
                        IdentityKeyUUID := kciKey.UUID
                        IdentityCertificateUUID := kciCert.UUID }
         mbind (keychainSaveItem kciID) fun _ =>
         mbind (savePayloadRefStringM profileID scepPayload.Payload "keychain_identity" kciID.UUID)
           fun _ =>
         mOk kciID.UUID) w1

/-- `removeSCEPPayload` from the source: look up the persisted
reference, load Identity, Key and Certificate, delete Certificate, then
Key, then Identity, then delete the reference entry. -/
def removeSCEPPayloadM (profileID : String) (scepPayload : SCEPPayload) : M Unit :=
  mbind (loadPayloadRefStringM profileID scepPayload.Payload "keychain_identity") fun refStr =>
  mbind (LoadKeychainItem refStr) fun kciID =>
  mbind (LoadKeychainItem kciID.IdentityKeyUUID) fun kciKey =>
  mbind (LoadKeychainItem kciID.IdentityCertificateUUID) fun kciCert =>
  mbind (keychainDeleteItem kciCert) fun _ =>
  mbind (keychainDeleteItem kciKey) fun _ =>
  mbind (keychainDeleteItem kciID) fun _ =>
  removePayloadRefStringM profileID scepPayload.Payload "keychain_identity"

/-! ## MDM enrollment state machine (`mdmclient.go`) -/

/-- The MDM client view: the payload it enrolls with and the loaded
identity. -/
structure MDMClient where
  payload : Option MDMPayload
  identityKey : Option RSAKey := none
  identityCert : Option Cert := none
deriving DecidableEq, Repr

/-- `loadIdentityFromKeychain` from the source: reject an empty UUID,
then load Identity, Key and Certificate items. -/
def loadIdentityFromKeychainM (uuid : String) : M (Option RSAKey × Option Cert) :=
  if uuid = "" then mErr "invalid keychain UUID"
  else
    mbind (LoadKeychainItem uuid) fun kciID =>
    mbind (LoadKeychainItem kciID.IdentityKeyUUID) fun kciKey =>
    mbind (LoadKeychainItem kciID.IdentityCertificateUUID) fun kciCert =>
    mOk (kciKey.Key, kciCert.Certificate)

/-- Modelled from the spec: `newMDMClientUsingPayload` (the wrapper
called by `installMDMPayload`, missing from src/) constructs the client
from device plus payload and loads the active identity — exactly
`NewMDMClient2` of src/internal/device/mdmclient.go. -/
def newMDMClientUsingPayloadM (mdmPld : MDMPayload) : M MDMClient := fun w =>
  (mbind (loadIdentityFromKeychainM w.device.MDMIdentityKeychainUUID) fun kc =>
   mOk { payload := some mdmPld, identityKey := kc.1, identityCert := kc.2 }) w

/-- `enroll2` from the source: require a payload, require
`SignMessage`, call Authenticate then TokenUpdate, and only then record
`MDMProfileIdentifier`. -/
def enroll2M (env : Env) (c : MDMClient) (profileID : String) : M Unit :=
  match c.payload with
  | none => mErr "no MDM payload"
  | some pld =>
    if pld.SignMessage = false then
      mErr "non-SignMessage (mTLS) enrollment not supported"
    else
      mbind (authenticateM env) fun _ =>
      mbind (tokenUpdateM env) fun _ =>
      fun w => ({ w with device := { w.device with MDMProfileIdentifier := profileID } }, .ok ())

/-- `installMDMPayload` from the source: build the client (loading the
active identity), run the enroll transition, save the device. -/
def installMDMPayloadM (env : Env) (mdmPayload : MDMPayload) (profileID : String) : M Unit :=
  mbind (newMDMClientUsingPayloadM mdmPayload) fun c =>
  mbind (enroll2M env c profileID) fun _ =>
  deviceSaveM

/-- `loadOrDeleteMDMIdentity` from the source: load the identity chain;
when deleting, delete Certificate, Key, then Identity (their errors
unchecked in the source). -/
def loadOrDeleteMDMIdentityM (uuid : String) (del : Bool) : M (Option RSAKey × Option Cert) :=
  mbind (LoadKeychainItem uuid) fun kciID =>
  mbind (LoadKeychainItem kciID.IdentityKeyUUID) fun kciKey =>
  mbind (LoadKeychainItem kciID.IdentityCertificateUUID) fun kciCert =>
  if del then
    mbind (keychainDeleteItem kciCert) fun _ =>
    mbind (keychainDeleteItem kciKey) fun _ =>
    mbind (keychainDeleteItem kciID) fun _ =>
    mOk (kciKey.Key, kciCert.Certificate)
  else
    mOk (kciKey.Key, kciCert.Certificate)

/-- `NewMDMClient` from the source: load the identity when one is
referenced, then the MDM payload of the installed enrollment profile
when one is recorded. -/
def NewMDMClientM : M MDMClient :=
  mbind (fun w => (w, .ok w.device)) fun dev =>
  mbind (if dev.MDMIdentityKeychainUUID ≠ "" then
           loadOrDeleteMDMIdentityM dev.MDMIdentityKeychainUUID false
         else mOk (none, none)) fun kc =>
  if dev.MDMProfileIdentifier ≠ "" then
    mbind (loadProfileM dev.MDMProfileIdentifier) fun p =>
    match p.MDMPayloads with
    | [pld] => mOk { payload := some pld, identityKey := kc.1, identityCert := kc.2 }
    | _ => mErr "enrollment profile must contain an MDM payload"
  else
    mOk { payload := none, identityKey := kc.1, identityCert := kc.2 }

/-- `removeMDMPayload` from the source; `device.MDMClient()` is
modelled without its process-wide lazy cache (spec §9) as
`NewMDMClient`; the checkin collaborator's `unenroll` call is missing
from src/ and Modelled from the spec (§4.7): invoke unenroll, then
clear `MDMProfileIdentifier`, then save the device. -/
def removeMDMPayloadM (env : Env) : M Unit :=
  mbind NewMDMClientM fun _c =>
  mbind (unenrollCheckinM env) fun _ =>
  mbind (fun w =>
    ({ w with device := { w.device with MDMProfileIdentifier := "" } }, .ok ())) fun _ =>
  deviceSaveM

/-! ## Removal pass (`RemoveProfile`) -/

/-- The removal loop of `RemoveProfile`: per-payload errors are logged
and do not abort the remaining payloads (best-effort teardown). -/
def removePayloadsM (env : Env) (profileID : String) : List PayloadAndResult → M Unit
  | [] => mOk ()
  | pr :: rest =>
    match pr.payload with
    | .scep pl =>
      mbind (fun w =>
        match removeSCEPPayloadM profileID pl w with
        | (w', .ok _) => (w', .ok ())
        | (w', .error e) => (logEvent (.logged e) w', .ok ())) fun _ =>
      removePayloadsM env profileID rest
    | .mdm _ =>
      mbind (fun w =>
        match removeMDMPayloadM env w with
        | (w', .ok _) => (w', .ok ())
        | (w', .error e) => (logEvent (.logged e) w', .ok ())) fun _ =>
      removePayloadsM env profileID rest
    | .other _ =>
      mbind (fun w =>
        (logEvent (.logged ("unknown payload type " ++ pr.CommonPayload.PayloadType ++
          " uuid " ++ pr.CommonPayload.PayloadUUID ++ " not processed")) w, .ok ())) fun _ =>
      removePayloadsM env profileID rest

/-- `RemoveProfile` from the source: load the stored document, classify
and sort descending (MDM before SCEP), run the best-effort removal
loop, then remove the document. -/
def RemoveProfileM (env : Env) (profileID : String) : M Unit :=
  mbind (loadProfileM profileID) fun p =>
  mbind (removePayloadsM env p.PayloadIdentifier (classifyAndSortProfilePayloads p true)) fun _ =>
  removeProfileDocM p.PayloadIdentifier

/-! ## Install pass (`ValidateProfileInstall`, `installProfile`) -/

/-- `ValidateProfileInstall` from the source, including the source's
quirk of re-checking `mdmPlds` (not `mdmPldsOld`) in the `fromMDM`
branch; indexing `mdmPldsOld[0]` on an empty slice would panic in Go
and is modelled as an error. -/
def ValidateProfileInstallM (p : Profile) (fromMDM : Bool) : M Unit := fun w =>
  let mdmPlds := p.MDMPayloads
  if mdmPlds.length ≥ 1 then
    if mdmPlds.length > 1 then
      (w, .error "Profile may only contain one MDM payload")
    else if fromMDM = false ∧ w.device.MDMProfileIdentifier ≠ "" then
      (w, .error "device already enrolled, please unenroll first")
    else if fromMDM then
      match loadProfileM w.device.MDMProfileIdentifier w with
      | (w1, .error e) => (w1, .error e)
      | (w1, .ok pOld) =>
        if mdmPlds.length ≠ 1 then
          (w1, .error "invalid existing MDM profile")
        else
          match mdmPlds, pOld.MDMPayloads with
          | mdmPld :: _, mdmPldOld :: _ =>
            if mdmPld.ServerURL ≠ mdmPldOld.ServerURL then
              (w1, .error "MDM payload must contain same URL")
            else (w1, .ok ())
          | _, _ => (w1, .error "panic: index out of range")
    else (w, .ok ())
  else (w, .ok ())

/-- The `matched` accumulation of `installProfile`: the last installed
id equal to the profile's identifier, or empty. -/
def matchedUUID (uuids : List String) (profileID : String) : String :=
  uuids.foldl (fun acc uuid => if uuid = profileID then uuid else acc) ""

/-- Steps 2-3 of `installProfile`: validate, list installed ids, and
when the same identifier is already installed remove it first — the
removal pass's return value is discarded, as in the source. -/
def installPreludeM (env : Env) (p : Profile) (fromMDM : Bool) : M Unit :=
  mbind (ValidateProfileInstallM p fromMDM) fun _ =>
  mbind listUUIDsM fun uuids =>
  let matched := matchedUUID uuids p.PayloadIdentifier
  if matched ≠ "" then
    fun w =>
      match RemoveProfileM env matched w with
      | (w', _) => (w', .ok ())
  else mOk ()

/-- The payload loop of `installProfile`, over the sorted records.  The
source mutates `StringResult` in the shared slice and
`findpayloadAndResultByUUID` searches that same slice, so the loop
carries the processed prefix (`done`, results filled in) and the
pending suffix (results still empty). -/
def installPayloadsM (env : Env) (profileID : String) (done : List PayloadAndResult) :
    List PayloadAndResult → M Unit
  | [] => mOk ()
  | pr :: todo =>
    match pr.payload with
    | .scep pl =>
      mbind (installSCEPPayloadM env profileID pl) fun res =>
      if res = "" then mErr "no result from scep payload install"
      else installPayloadsM env profileID (done ++ [{ pr with StringResult := res }]) todo
    | .mdm pl =>
      match findpayloadAndResultByUUID (done ++ pr :: todo) pl.IdentityCertificateUUID with
      | none => mErr ("could not find payload UUID " ++ pl.IdentityCertificateUUID)
      | some ref =>
        if ref.StringResult = "" then
          mErr "referenced identity payload has no result keychain ID"
        else
          mbind (fun w =>
            ({ w with device := { w.device with MDMIdentityKeychainUUID := ref.StringResult } },
              .ok ())) fun _ =>
          mbind deviceSaveM fun _ =>
          mbind (installMDMPayloadM env pl profileID) fun _ =>
          installPayloadsM env profileID (done ++ [pr]) todo
    | .other _ =>
      mbind (fun w =>
        (logEvent (.logged ("unknown payload type " ++ pr.CommonPayload.PayloadType ++
          " uuid " ++ pr.CommonPayload.PayloadUUID ++ " not processed")) w, .ok ())) fun _ =>
      installPayloadsM env profileID (done ++ [pr]) todo

/-- Steps 4-7 of `installProfile`: classify/sort ascending by
capability, install every payload, then persist the document. -/
def installCoreM (env : Env) (p : Profile) : M Unit :=
  mbind (installPayloadsM env p.PayloadIdentifier [] (classifyAndSortProfilePayloads p false))
    fun _ =>
  persistProfileM p p.PayloadIdentifier

/-- `installProfile` from the source; the input is the already-parsed
profile (parsing is the external `plist`/`cfgprofiles` collaborator, so
the empty-input and unmarshal failures cannot arise on a typed value). -/
def installProfileM (env : Env) (p : Profile) (fromMDM : Bool) : M Unit :=
  mbind (installPreludeM env p fromMDM) fun _ =>
  installCoreM env p

/-- `InstallProfile`: the exported entry point, `fromMDM = false`. -/
def InstallProfileM (env : Env) (p : Profile) : M Unit :=
  installProfileM env p false

/-! ## Concrete fixtures used to evaluate the model on closed inputs -/

/-- A fresh simulated device (identifiers from `cmd/mdmb/main.go`). -/
def exDevice : Device :=
  { UDID := "475F0A29-6FCE-419E-A30F-9FF616FD2B87"
    Serial := "P3IJDS49Z90A"
    ComputerName := "Maliks computer"
    MDMProfileIdentifier := ""
    MDMIdentityKeychainUUID := "" }

/-- An environment in which every external collaborator succeeds. -/
def exEnv : Env :=
  { scepResult := .ok ⟨7⟩
    authenticateResult := .ok ()
    tokenUpdateResult := .ok ()
    unenrollResult := .ok () }

/-- Common fields of the example SCEP payload. -/
def exScepCommon : Payload :=
  { PayloadIdentifier := "pid.scep"
    PayloadUUID := "SUUID"
    PayloadType := "com.apple.security.scep" }

/-- A valid SCEP payload: RSA by default, default key size. -/
def exScep : SCEPPayload :=
  { Payload := exScepCommon
    PayloadContent :=
      { KeyType := ""
        KeySize := 0
        KeyUsage := 0
        Challenge := ""
        URL := "http://scep.example/scep"
        Name := ""
        CAFingerprint := []
        Subject := [] } }

/-- An MDM payload referencing the SCEP payload's UUID, with
message-signing declared. -/
def exMdm : MDMPayload :=
  { Payload := { PayloadIdentifier := "pid.mdm", PayloadUUID := "MUUID", PayloadType := "com.apple.mdm" }
    IdentityCertificateUUID := "SUUID"
    ServerURL := "https://mdm.example/mdm"
    CheckInURL := "https://mdm.example/checkin"
    SignMessage := true }

/-- A profile with a single SCEP payload. -/
def exScepProfile : Profile :=
  { PayloadIdentifier := "com.example.profile"
    PayloadContent := [.scep exScep] }

/-- A profile declaring the MDM payload before the SCEP payload it
references (reverse of installation order). -/
def exRevProfile : Profile :=
  { PayloadIdentifier := "com.example.profile"
    PayloadContent := [.mdm exMdm, .scep exScep] }

/-- Empty stores, fresh device. -/
def exFreshWorld : World :=
  { device := exDevice, keychain := [], profiles := [], refs := [], counter := 0, events := [] }

/-- A persisted Identity keychain item referencing a Key and a
Certificate item. -/
def exIdentityItem : KeychainItem :=
  { UUID := "uuid-9", Class := .identity
    IdentityKeyUUID := "uuid-7", IdentityCertificateUUID := "uuid-8" }

/-- The Key item of the example identity. -/
def exKeyItem : KeychainItem := { UUID := "uuid-7", Class := .key, Key := some ⟨1024⟩ }

/-- The Certificate item of the example identity. -/
def exCertItem : KeychainItem :=
  { UUID := "uuid-8", Class := .certificate, Certificate := some ⟨3⟩ }

/-- A world holding the intact identity chain and the payload reference
for the example SCEP payload of `exScepProfile`/`exRevProfile`. -/
def exChainWorld : World :=
  { exFreshWorld with
    keychain := [("uuid-9", exIdentityItem), ("uuid-7", exKeyItem), ("uuid-8", exCertItem)]
    refs := [(refKey "com.example.profile" exScepCommon "keychain_identity", "uuid-9")] }

/-- A world where `exScepProfile` is already installed and its payload
reference points at an identity that is missing from the keychain, so
removal of that identity fails (and is logged) during the removal pass. -/
def exInstalledWorld : World :=
  { exFreshWorld with
    profiles := [(profileKey exDevice.UDID "com.example.profile", exScepProfile)]
    refs := [(refKey "com.example.profile" exScepCommon "keychain_identity", "uuid-9")] }

/-- The persistent stores two worlds share: same keychain, same
payload references, same profile documents, same device scope (UDID).
The payload loop of the install pass preserves all four — its only
writes live in the unreachable issuance branch. -/
def StoresEq (w w' : World) : Prop :=
  w'.keychain = w.keychain ∧ w'.refs = w.refs ∧ w'.profiles = w.profiles ∧
    w'.device.UDID = w.device.UDID

/-! ## Claim theorems -/

/-- **C7**: for a SCEP payload whose `KeyType` is unset or `"RSA"`, key
generation returns an RSA key of `KeySize` bits when `KeySize` is
positive and 1024 bits otherwise; any other `KeyType` yields the
Unsupported error and no key. -/
theorem claim_C7_keyGeneration (pl : SCEPPayload) :
    ((pl.PayloadContent.KeyType = "" ∨ pl.PayloadContent.KeyType = "RSA") →
      keyFromSCEPProfilePayload pl =
        .ok ⟨if 0 < pl.PayloadContent.KeySize then pl.PayloadContent.KeySize.toNat else 1024⟩) ∧
    (pl.PayloadContent.KeyType ≠ "" → pl.PayloadContent.KeyType ≠ "RSA" →
      keyFromSCEPProfilePayload pl = .error "only RSA keys supported") := by
  constructor
  · intro h
    rcases h with h | h <;>
      simp [keyFromSCEPProfilePayload, h, defaultRSAKeySize, gt_iff_lt]
  · intro h1 h2
    simp [keyFromSCEPProfilePayload, h1, h2]

/-- Witness for C7: a 2048-bit request yields a 2048-bit key, an
unset-size request yields 1024 bits, and an EC request is rejected. -/
theorem claim_C7_keyGeneration_witness :
    keyFromSCEPProfilePayload
      { exScep with PayloadContent := { exScep.PayloadContent with KeySize := 2048 } } =
        .ok ⟨2048⟩ ∧
    keyFromSCEPProfilePayload exScep = .ok ⟨1024⟩ ∧
    keyFromSCEPProfilePayload
      { exScep with PayloadContent := { exScep.PayloadContent with KeyType := "EC" } } =
        .error "only RSA keys supported" := by
  refine ⟨?_, ?_, ?_⟩
  · have h := (claim_C7_keyGeneration
      { exScep with PayloadContent := { exScep.PayloadContent with KeySize := 2048 } }).1
      (Or.inl rfl)
    simpa using h
  · have h := (claim_C7_keyGeneration exScep).1 (Or.inl rfl)
    simpa using h
  · exact (claim_C7_keyGeneration
      { exScep with PayloadContent := { exScep.PayloadContent with KeyType := "EC" } }).2
      (by decide) (by decide)

/-- The replacer maps the whole-string token `%ComputerName%` to the
device's ComputerName. -/
theorem replaceSCEPVars_computerName (device : Device) :
    replaceSCEPVars device ["%ComputerName%"] = [device.ComputerName] := by
  show [String.mk (device.ComputerName.data ++ [])] = [device.ComputerName]
  rw [List.append_nil]

/-- The replacer maps the whole-string token `%HardwareUUID%` to the
device's UDID. -/
theorem replaceSCEPVars_hardwareUUID (device : Device) :
    replaceSCEPVars device ["%HardwareUUID%"] = [device.UDID] := by
  show [String.mk (device.UDID.data ++ [])] = [device.UDID]
  rw [List.append_nil]

/-- The replacer maps the whole-string token `%SerialNumber%` to the
device's Serial. -/
theorem replaceSCEPVars_serialNumber (device : Device) :
    replaceSCEPVars device ["%SerialNumber%"] = [device.Serial] := by
  show [String.mk (device.Serial.data ++ [])] = [device.Serial]
  rw [List.append_nil]

/-- **C9**: subject-value substitution replaces exactly the tokens
`%ComputerName%`, `%HardwareUUID%` and `%SerialNumber%` with the
device's ComputerName, UDID and Serial; the unrecognized token
`%HostName%` passes through unchanged; and a subject value
`"%SerialNumber%"` reaches the CSR subject as the device Serial (e.g.
`"P3IJDS49Z90A"`). -/
theorem claim_C9_subjectVariableSubstitution (device : Device) :
    replaceSCEPVars device ["%ComputerName%"] = [device.ComputerName] ∧
    replaceSCEPVars device ["%HardwareUUID%"] = [device.UDID] ∧
    replaceSCEPVars device ["%SerialNumber%"] = [device.Serial] ∧
    replaceSCEPVars device ["%HostName%"] = ["%HostName%"] ∧
    (device.Serial = "P3IJDS49Z90A" →
      replaceSCEPVars device ["%SerialNumber%"] = ["P3IJDS49Z90A"]) ∧
    (∀ pl : SCEPPayload, pl.PayloadContent.Subject = [[["CN", "%SerialNumber%"]]] →
      device.Serial ≠ "" →
      ∃ csr, csrFromSCEPProfilePayload pl device = .ok csr ∧ csr.commonName = device.Serial) := by
  refine ⟨replaceSCEPVars_computerName device, replaceSCEPVars_hardwareUUID device,
    replaceSCEPVars_serialNumber device, rfl, ?_, ?_⟩
  · intro h
    rw [replaceSCEPVars_serialNumber, h]
  · intro pl hsubj hser
    simp only [csrFromSCEPProfilePayload, hsubj, applySubject, applySubjectGroup,
      applySubjectONV, replaceSCEPVars_serialNumber]
    simp [replaceSCEPVars_serialNumber, hser, Bind.bind, Except.bind]

/-- Witness for C9: with the example device (Serial `P3IJDS49Z90A`),
the serial token substitutes to `P3IJDS49Z90A` both directly and in the
CSR common name. -/
theorem claim_C9_subjectVariableSubstitution_witness :
    replaceSCEPVars exDevice ["%SerialNumber%"] = ["P3IJDS49Z90A"] ∧
    (∃ csr,
      csrFromSCEPProfilePayload
        { exScep with PayloadContent :=
            { exScep.PayloadContent with Subject := [[["CN", "%SerialNumber%"]]] } }
        exDevice = .ok csr ∧
      csr.commonName = exDevice.Serial) := by
  refine ⟨(claim_C9_subjectVariableSubstitution exDevice).2.2.2.2.1 rfl, ?_⟩
  exact (claim_C9_subjectVariableSubstitution exDevice).2.2.2.2.2
    { exScep with PayloadContent :=
        { exScep.PayloadContent with Subject := [[["CN", "%SerialNumber%"]]] } }
    rfl (by decide)

set_option maxRecDepth 4096

/-- Byte reversal stays below 256. -/
theorem rb_lt : ∀ b < 256, reverseBitsInAByte b < 256 := by decide

/-- Byte reversal is zero exactly on zero. -/
theorem rb_eq_zero_iff : ∀ b < 256, (reverseBitsInAByte b = 0 ↔ b = 0) := by decide

/-- Decoding all eight bits of a reversed byte restores the byte. -/
theorem decodeByte_rb_full : ∀ b < 256, decodeByte (reverseBitsInAByte b) 8 = b := by decide

/-- Decoding a reversed byte under its trimmed bit length restores the
byte: the bits trimmed by `asn1BitLength` are all zero. -/
theorem decodeByte_rb_trim :
    ∀ b < 256, decodeByte (reverseBitsInAByte b) (asn1BitLength [reverseBitsInAByte b]) = b := by
  decide

/-- A byte with no set bit below 8 is zero. -/
theorem lowestSetBitUnder8_none : ∀ y < 256, lowestSetBitUnder8 y = none → y = 0 := by decide

/-- The lowest-set-bit search only returns indices below 8. -/
theorem lowestSetBitUnder8_lt (y k : Nat) (h : lowestSetBitUnder8 y = some k) : k < 8 := by
  have hmem := List.mem_of_find?_eq_some h
  simpa using hmem

/-- The trimmed bit length of a two-byte string with nonzero last byte
is eight plus that of the last byte alone. -/
theorem asn1BitLength_pair (x y : Nat) (hy : y < 256) (h0 : y ≠ 0) :
    asn1BitLength [x, y] = 8 + asn1BitLength [y] := by
  cases hls : lowestSetBitUnder8 y with
  | none => exact absurd (lowestSetBitUnder8_none y hy hls) h0
  | some k =>
    have hk : k < 8 := lowestSetBitUnder8_lt y k hls
    simp [asn1BitLength, asn1BitLengthAux, hls]
    omega

/-- A byte contributes at most its eight bits to the decoding. -/
theorem decodeByte_add8 (b t : Nat) : decodeByte b (8 + t) = decodeByte b 8 := by
  unfold decodeByte
  rw [show min (8 + t) 8 = 8 from by omega, show min 8 8 = 8 from by omega]

/-- **C8** (amended): for every key-usage bitmask below `2^16` — the
two bytes the builder encodes — the extension carries OID 2.5.29.15
marked critical, and decoding its BIT STRING (bit order reversed per
byte, trailing zero bits trimmed from the reported length) yields the
original mask back exactly. -/
theorem claim_C8_keyUsageRoundTrip (m : Nat) (hm : m < 65536) :
    (newKeyUsageExtension m).oid = [2, 5, 29, 15] ∧
    (newKeyUsageExtension m).critical = true ∧
    decodeBitString (newKeyUsageExtension m).bytes (newKeyUsageExtension m).bitLength = m := by
  refine ⟨rfl, rfl, ?_⟩
  have hlo : m % 256 < 256 := Nat.mod_lt _ (by omega)
  have hhi8 : m >>> 8 = m / 256 := by
    rw [Nat.shiftRight_eq_div_pow]
  have hhi : m / 256 < 256 := by omega
  have hmod : (m >>> 8) % 256 = m / 256 := by rw [hhi8, Nat.mod_eq_of_lt hhi]
  by_cases h0 : m / 256 = 0
  · have hz : (m >>> 8) % 256 = 0 := by rw [hmod, h0]
    have hmm : m % 256 = m := Nat.mod_eq_of_lt (by omega)
    simp only [newKeyUsageExtension, hz, show reverseBitsInAByte 0 = 0 from rfl, ne_eq,
      not_true_eq_false, if_false, decodeBitString]
    rw [hmm, decodeByte_rb_trim m (by omega)]
    omega
  · have hane : reverseBitsInAByte ((m >>> 8) % 256) ≠ 0 := by
      rw [hmod]
      intro hc
      exact h0 ((rb_eq_zero_iff _ hhi).mp hc)
    simp only [newKeyUsageExtension, ne_eq, hane, not_false_eq_true, if_true, decodeBitString]
    rw [asn1BitLength_pair _ _ (rb_lt _ (Nat.mod_lt _ (by omega))) hane]
    rw [decodeByte_add8]
    rw [show 8 + asn1BitLength [reverseBitsInAByte ((m >>> 8) % 256)] - 8 =
      asn1BitLength [reverseBitsInAByte ((m >>> 8) % 256)] from by omega]
    rw [decodeByte_rb_full _ hlo, decodeByte_rb_trim _ (Nat.mod_lt _ (by omega))]
    rw [hmod]
    have := Nat.div_add_mod m 256
    omega

/-- Witness for C8: the two-byte mask 421 round-trips through the
extension. -/
theorem claim_C8_keyUsageRoundTrip_witness :
    (newKeyUsageExtension 421).oid = [2, 5, 29, 15] ∧
    (newKeyUsageExtension 421).critical = true ∧
    decodeBitString (newKeyUsageExtension 421).bytes (newKeyUsageExtension 421).bitLength = 421 :=
  claim_C8_keyUsageRoundTrip 421 (by decide)

/-- Counterexample for C8 as stated ("for every key-usage bitmask"):
the mask `2^16` encodes to the same extension as the mask 0 — its only
set bit is dropped, not a trailing-zero trim — so decoding returns 0,
not the original mask. -/
theorem claim_C8_counterexample :
    newKeyUsageExtension 65536 = newKeyUsageExtension 0 ∧
    decodeBitString (newKeyUsageExtension 65536).bytes (newKeyUsageExtension 65536).bitLength = 0 ∧
    (65536 : Nat) ≠ 0 := by decide

/-- **C5**: a profile with more than one MDM payload is rejected by the
install pass with the Validation error, and the world — keychain,
reference store, profiles, and the event log of network calls — is left
completely untouched. -/
theorem claim_C5_duplicateMDMRejected (env : Env) (p : Profile) (w : World) (fromMDM : Bool)
    (h : p.MDMPayloads.length > 1) :
    installProfileM env p fromMDM w = (w, .error "Profile may only contain one MDM payload") := by
  have h1 : p.MDMPayloads.length ≥ 1 := by omega
  simp [installProfileM, installPreludeM, mbind, ValidateProfileInstallM, h, h1]

/-- Witness for C5: a two-MDM-payload profile is rejected on the fresh
world, unchanged. -/
theorem claim_C5_duplicateMDMRejected_witness :
    installProfileM exEnv
      { PayloadIdentifier := "x", PayloadContent := [.mdm exMdm, .mdm exMdm] } false exFreshWorld =
      (exFreshWorld, .error "Profile may only contain one MDM payload") :=
  claim_C5_duplicateMDMRejected exEnv
    { PayloadIdentifier := "x", PayloadContent := [.mdm exMdm, .mdm exMdm] }
    exFreshWorld false (by decide)

/-- **C6**: the Enroll transition on an MDM payload with
`SignMessage == false` fails with the Unsupported error and leaves the
world untouched — no Authenticate or TokenUpdate event, device
unchanged; and whenever the transition changes `MDMProfileIdentifier`
at all, it returned success and both Authenticate and TokenUpdate
succeeded. -/
theorem claim_C6_signMessageRequired (env : Env) (w : World) (pld : MDMPayload)
    (profileID : String) (h : pld.SignMessage = false) :
    (∀ ik ic,
      enroll2M env { payload := some pld, identityKey := ik, identityCert := ic } profileID w =
        (w, .error "non-SignMessage (mTLS) enrollment not supported")) ∧
    (∀ (c : MDMClient) (w1 w2 : World) (r : Except String Unit),
      enroll2M env c profileID w1 = (w2, r) →
      w2.device.MDMProfileIdentifier ≠ w1.device.MDMProfileIdentifier →
      r = .ok () ∧ env.authenticateResult = .ok () ∧ env.tokenUpdateResult = .ok ()) := by
  constructor
  · intro ik ic
    simp [enroll2M, h, mErr]
  · intro c w1 w2 r heq hne
    cases hc : c.payload with
    | none =>
      simp only [enroll2M, hc, mErr] at heq
      have hw : w1 = w2 := congrArg Prod.fst heq
      subst hw
      exact absurd rfl hne
    | some pld' =>
      simp only [enroll2M, hc] at heq
      by_cases hs : pld'.SignMessage = false
      · rw [if_pos hs] at heq
        simp only [mErr] at heq
        have hw : w1 = w2 := congrArg Prod.fst heq
        subst hw
        exact absurd rfl hne
      · rw [if_neg hs] at heq
        obtain ⟨sr, ar, tr, ur⟩ := env
        cases ar with
        | error e =>
          simp [mbind, authenticateM, logEvent] at heq
          obtain ⟨hw, hr⟩ := heq
          subst hw
          simp at hne
        | ok u =>
          cases u
          cases tr with
          | error e =>
            simp [mbind, authenticateM, tokenUpdateM, logEvent] at heq
            obtain ⟨hw, hr⟩ := heq
            subst hw
            simp at hne
          | ok u2 =>
            cases u2
            simp [mbind, authenticateM, tokenUpdateM, logEvent] at heq
            exact ⟨heq.2.symm, rfl, rfl⟩

/-- Witness for C6: a non-SignMessage payload fails with the world
unchanged, and a successful enrollment that sets the identifier carries
succeeding Authenticate and TokenUpdate. -/
theorem claim_C6_signMessageRequired_witness :
    enroll2M exEnv
      { payload := some { exMdm with SignMessage := false }, identityKey := none,
        identityCert := none } "p" exFreshWorld =
      (exFreshWorld, .error "non-SignMessage (mTLS) enrollment not supported") ∧
    (Except.ok () = (Except.ok () : Except String Unit) ∧
      exEnv.authenticateResult = .ok () ∧ exEnv.tokenUpdateResult = .ok ()) := by
  refine ⟨?_, ?_⟩
  · exact (claim_C6_signMessageRequired exEnv exFreshWorld { exMdm with SignMessage := false }
      "p" rfl).1 none none
  · exact (claim_C6_signMessageRequired exEnv exFreshWorld { exMdm with SignMessage := false }
      "p" rfl).2 { payload := some exMdm } exFreshWorld
      { exFreshWorld with
        device := { exDevice with MDMProfileIdentifier := "p" }
        events := [.authenticateCall, .tokenUpdateCall] }
      (.ok ()) (by decide) (by decide)

/-! ### Sequencing helpers -/

/-- Run a bind whose first operation succeeds. -/
theorem mbind_ok {α β : Type} (x : M α) (f : α → M β) (w w1 : World) (a : α)
    (h : x w = (w1, .ok a)) : mbind x f w = f a w1 := by
  unfold mbind
  rw [h]

/-- Run a bind whose first operation fails. -/
theorem mbind_err {α β : Type} (x : M α) (f : α → M β) (w w1 : World) (e : String)
    (h : x w = (w1, .error e)) : mbind x f w = (w1, .error e) := by
  unfold mbind
  rw [h]

/-- A keychain load succeeds on a present item whose identity
references (if it is an Identity) resolve. -/
theorem LoadKeychainItem_ok (w : World) (uuid : String) (kci : KeychainItem)
    (h : alookup w.keychain uuid = some kci)
    (hnb : ¬(kci.Class = .identity ∧
      (alookup w.keychain kci.IdentityKeyUUID = none ∨
       alookup w.keychain kci.IdentityCertificateUUID = none))) :
    LoadKeychainItem uuid w = (w, .ok kci) := by
  unfold LoadKeychainItem
  rw [h]
  show (if kci.Class = KCClass.identity ∧
      (alookup w.keychain kci.IdentityKeyUUID = none ∨
       alookup w.keychain kci.IdentityCertificateUUID = none) then
    (w, Except.error ("broken identity reference: " ++ uuid))
  else (w, Except.ok kci)) = (w, Except.ok kci)
  rw [if_neg hnb]

/-- A keychain load fails on an absent identifier. -/
theorem LoadKeychainItem_notFound (w : World) (uuid : String)
    (h : alookup w.keychain uuid = none) :
    LoadKeychainItem uuid w = (w, .error ("keychain item not found: " ++ uuid)) := by
  unfold LoadKeychainItem
  rw [h]

/-- Overwriting then looking up the same key returns the new value. -/
theorem alookup_aset_self {α : Type} (l : List (String × α)) (k : String) (v : α) :
    alookup (aset l k v) k = some v := by
  induction l with
  | nil => simp [aset, alookup]
  | cons hd tl ih =>
    by_cases hk : hd.1 = k
    · simp [aset, hk, alookup]
    · simp [aset, hk, alookup, ih]

/-- `installSCEPPayload` runs to: a key/CSR error, or — because
`loadPayloadRefString` never errors — the reuse branch returning the
stored reference (empty when absent), never reaching the SCEP client or
the keychain. -/
theorem installSCEPPayloadM_run (env : Env) (pid : String) (pl : SCEPPayload) (w : World) :
    installSCEPPayloadM env pid pl w =
      match keyFromSCEPProfilePayload pl with
      | .error e => (w, .error e)
      | .ok _ =>
        match csrFromSCEPProfilePayload pl w.device with
        | .error e => (w, .error e)
        | .ok _ =>
          (logEvent (.logged ("reusing existing (pending?) uuid " ++
            (alookup w.refs (refKey pid pl.Payload "keychain_identity")).getD "")) w,
           .ok ((alookup w.refs (refKey pid pl.Payload "keychain_identity")).getD "")) := by
  unfold installSCEPPayloadM
  split
  · rfl
  · split
    · rfl
    · rfl

/-! ## C1: the idempotency check of `installSCEPPayload` -/

/-- **C1** (evaluated at the failing input): on a fresh world — no
stored reference, empty keychain — installing a profile with one valid
SCEP payload does NOT call the SCEP client and does NOT create
Key/Certificate/Identity items or a reference mapping: the
always-taken reuse branch returns the empty stored value and the pass
aborts with "no result from scep payload install", leaving the world
unchanged except for the reuse log line. -/
theorem claim_C1_failing_input_eval :
    (InstallProfileM exEnv exScepProfile exFreshWorld).2 =
      .error "no result from scep payload install" ∧
    (InstallProfileM exEnv exScepProfile exFreshWorld).1 =
      { exFreshWorld with events := [.logged "reusing existing (pending?) uuid "] } := by
  decide

/-! ## C2: deletion order of `removeSCEPPayload` -/

/-- Counterexample for C2 as stated: on the intact example identity
chain, the first keychain deletion performed by `removeSCEPPayload` is
the Certificate item, not the Identity item — the full deletion order
is Certificate, Key, Identity, then the reference removal. -/
theorem claim_C2_counterexample :
    (removeSCEPPayloadM "com.example.profile" exScep exChainWorld).1.events =
      [.keychainDelete "uuid-8" .certificate, .keychainDelete "uuid-7" .key,
       .keychainDelete "uuid-9" .identity,
       .refRemove "com.example.profile_pid.scep_SUUID_keychain_identity"] ∧
    KCClass.certificate ≠ KCClass.identity := by
  decide

/-- **C2** (amended): for every removal of a SCEP payload's persisted
identity, the three keychain items are deleted in the order Certificate
first, then the Key, then the Identity, and only afterwards is the
payload-reference entry removed. -/
theorem claim_C2_amended_deletionOrder (profileID : String) (pl : SCEPPayload) (w : World)
    (u : String) (kid kk kc : KeychainItem)
    (href : alookup w.refs (refKey profileID pl.Payload "keychain_identity") = some u)
    (hid : alookup w.keychain u = some kid)
    (hidc : kid.Class = .identity)
    (hk : alookup w.keychain kid.IdentityKeyUUID = some kk)
    (hkc : kk.Class = .key)
    (hc : alookup w.keychain kid.IdentityCertificateUUID = some kc)
    (hcc : kc.Class = .certificate) :
    (removeSCEPPayloadM profileID pl w).2 = .ok () ∧
    (removeSCEPPayloadM profileID pl w).1.events =
      w.events ++
        [.keychainDelete kc.UUID .certificate, .keychainDelete kk.UUID .key,
         .keychainDelete kid.UUID .identity,
         .refRemove (refKey profileID pl.Payload "keychain_identity")] := by
  have l1 : loadPayloadRefStringM profileID pl.Payload "keychain_identity" w = (w, .ok u) := by
    simp [loadPayloadRefStringM, href]
  have l2 : LoadKeychainItem u w = (w, .ok kid) :=
    LoadKeychainItem_ok w u kid hid (by simp [hk, hc])
  have l3 : LoadKeychainItem kid.IdentityKeyUUID w = (w, .ok kk) :=
    LoadKeychainItem_ok w _ kk hk (by simp [hkc])
  have l4 : LoadKeychainItem kid.IdentityCertificateUUID w = (w, .ok kc) :=
    LoadKeychainItem_ok w _ kc hc (by simp [hcc])
  rw [removeSCEPPayloadM, mbind_ok _ _ _ _ _ l1, mbind_ok _ _ _ _ _ l2,
    mbind_ok _ _ _ _ _ l3, mbind_ok _ _ _ _ _ l4]
  rw [mbind_ok _ _ _ _ _ rfl, mbind_ok _ _ _ _ _ rfl, mbind_ok _ _ _ _ _ rfl]
  simp [removePayloadRefStringM, keychainDeleteItem, logEvent, hcc, hkc, hidc,
    List.append_assoc]

/-- Witness for the amended C2 on the example chain. -/
theorem claim_C2_amended_deletionOrder_witness :
    (removeSCEPPayloadM "com.example.profile" exScep exChainWorld).2 = .ok () ∧
    (removeSCEPPayloadM "com.example.profile" exScep exChainWorld).1.events =
      [.keychainDelete "uuid-8" .certificate, .keychainDelete "uuid-7" .key,
       .keychainDelete "uuid-9" .identity,
       .refRemove "com.example.profile_pid.scep_SUUID_keychain_identity"] := by
  have h := claim_C2_amended_deletionOrder "com.example.profile" exScep exChainWorld
    "uuid-9" exIdentityItem exKeyItem exCertItem (by decide) (by decide) rfl (by decide) rfl
    (by decide) rfl
  simpa [exChainWorld, exFreshWorld, exIdentityItem, exKeyItem, exCertItem] using h

/-! ### Store preservation across the payload loop -/

/-- `StoresEq` is reflexive. -/
theorem storesEq_refl (w : World) : StoresEq w w := ⟨rfl, rfl, rfl, rfl⟩

/-- `StoresEq` is transitive. -/
theorem storesEq_trans {w w1 w2 : World} (h1 : StoresEq w w1) (h2 : StoresEq w1 w2) :
    StoresEq w w2 :=
  ⟨h2.1.trans h1.1, h2.2.1.trans h1.2.1, h2.2.2.1.trans h1.2.2.1, h2.2.2.2.trans h1.2.2.2⟩

/-- Logging preserves the stores. -/
theorem storesEq_logEvent (e : Event) (w : World) : StoresEq w (logEvent e w) :=
  ⟨rfl, rfl, rfl, rfl⟩

/-- Sequencing preserves the stores when both halves do. -/
theorem mbind_stores {α β : Type} (x : M α) (f : α → M β)
    (hx : ∀ w, StoresEq w (x w).1) (hf : ∀ a w, StoresEq w (f a w).1) (w : World) :
    StoresEq w (mbind x f w).1 := by
  unfold mbind
  have hx' := hx w
  cases hxw : x w with
  | mk w1 r =>
    rw [hxw] at hx'
    cases r with
    | ok a => exact storesEq_trans hx' (hf a w1)
    | error e => exact hx'

/-- A keychain load never changes the world. -/
theorem LoadKeychainItem_fst (uuid : String) (w : World) :
    (LoadKeychainItem uuid w).1 = w := by
  unfold LoadKeychainItem
  split
  · rfl
  · split <;> rfl

/-- A keychain load preserves the stores. -/
theorem storesEq_LoadKeychainItem (uuid : String) (w : World) :
    StoresEq w (LoadKeychainItem uuid w).1 := by
  rw [LoadKeychainItem_fst]
  exact storesEq_refl w

/-- The SCEP payload installation step preserves the stores: it only
errors in key/CSR construction or returns via the reuse branch. -/
theorem storesEq_installSCEPPayloadM (env : Env) (pid : String) (pl : SCEPPayload) (w : World) :
    StoresEq w (installSCEPPayloadM env pid pl w).1 := by
  rw [installSCEPPayloadM_run]
  split
  · exact storesEq_refl w
  · split
    · exact storesEq_refl w
    · exact storesEq_logEvent _ w

/-- Loading the identity preserves the stores. -/
theorem storesEq_loadIdentityFromKeychainM (uuid : String) (w : World) :
    StoresEq w (loadIdentityFromKeychainM uuid w).1 := by
  unfold loadIdentityFromKeychainM
  split
  · exact storesEq_refl w
  · exact mbind_stores _ _ (fun w1 => storesEq_LoadKeychainItem _ w1)
      (fun a => mbind_stores _ _ (fun w1 => storesEq_LoadKeychainItem _ w1)
        (fun b => mbind_stores _ _ (fun w1 => storesEq_LoadKeychainItem _ w1)
          (fun c w2 => storesEq_refl w2))) w

/-- Constructing the MDM client preserves the stores. -/
theorem storesEq_newMDMClientUsingPayloadM (pld : MDMPayload) (w : World) :
    StoresEq w (newMDMClientUsingPayloadM pld w).1 := by
  unfold newMDMClientUsingPayloadM
  exact mbind_stores _ _ (fun w1 => storesEq_loadIdentityFromKeychainM _ w1)
    (fun a w1 => storesEq_refl w1) w

/-- The Enroll transition preserves the stores (it mutates only the
device's MDM fields and the event log). -/
theorem storesEq_enroll2M (env : Env) (c : MDMClient) (pid : String) (w : World) :
    StoresEq w (enroll2M env c pid w).1 := by
  obtain ⟨pay, ik, ic⟩ := c
  cases pay with
  | none => exact storesEq_refl w
  | some pld =>
    unfold enroll2M
    by_cases hs : pld.SignMessage = false
    · simp only [if_pos hs]
      exact storesEq_refl w
    · simp only [if_neg hs]
      refine mbind_stores _ _ (fun w1 => ?_) (fun a w1 => ?_) w
      · unfold authenticateM
        exact storesEq_logEvent _ w1
      · refine mbind_stores _ _ (fun w2 => ?_) (fun b w2 => ?_) w1
        · unfold tokenUpdateM
          exact storesEq_logEvent _ w2
        · exact ⟨rfl, rfl, rfl, rfl⟩

/-- The MDM payload installation step preserves the stores. -/
theorem storesEq_installMDMPayloadM (env : Env) (pld : MDMPayload) (pid : String) (w : World) :
    StoresEq w (installMDMPayloadM env pld pid w).1 := by
  unfold installMDMPayloadM
  exact mbind_stores _ _ (storesEq_newMDMClientUsingPayloadM pld)
    (fun c => mbind_stores _ _ (storesEq_enroll2M env c pid)
      (fun _ w2 => storesEq_logEvent _ w2)) w

/-- One-step equation of the loop on a SCEP record. -/
theorem installPayloadsM_cons_scep (env : Env) (pid : String) (done : List PayloadAndResult)
    (pr : PayloadAndResult) (todo : List PayloadAndResult) (pl : SCEPPayload)
    (hp : pr.payload = .scep pl) :
    installPayloadsM env pid done (pr :: todo) =
      mbind (installSCEPPayloadM env pid pl) fun res =>
        if res = "" then mErr "no result from scep payload install"
        else installPayloadsM env pid (done ++ [{ pr with StringResult := res }]) todo := by
  cases pr
  cases hp
  rfl

/-- One-step equation of the loop on an MDM record. -/
theorem installPayloadsM_cons_mdm (env : Env) (pid : String) (done : List PayloadAndResult)
    (pr : PayloadAndResult) (todo : List PayloadAndResult) (pl : MDMPayload)
    (hp : pr.payload = .mdm pl) :
    installPayloadsM env pid done (pr :: todo) =
      match findpayloadAndResultByUUID (done ++ pr :: todo) pl.IdentityCertificateUUID with
      | none => mErr ("could not find payload UUID " ++ pl.IdentityCertificateUUID)
      | some ref =>
        if ref.StringResult = "" then
          mErr "referenced identity payload has no result keychain ID"
        else
          mbind (fun w =>
            ({ w with device := { w.device with MDMIdentityKeychainUUID := ref.StringResult } },
              .ok ())) fun _ =>
          mbind deviceSaveM fun _ =>
          mbind (installMDMPayloadM env pl pid) fun _ =>
          installPayloadsM env pid (done ++ [pr]) todo := by
  cases pr
  cases hp
  rfl

/-- One-step equation of the loop on an unrecognized record. -/
theorem installPayloadsM_cons_other (env : Env) (pid : String) (done : List PayloadAndResult)
    (pr : PayloadAndResult) (todo : List PayloadAndResult) (pl : Payload)
    (hp : pr.payload = .other pl) :
    installPayloadsM env pid done (pr :: todo) =
      mbind (fun w =>
        (logEvent (.logged ("unknown payload type " ++ pr.CommonPayload.PayloadType ++
          " uuid " ++ pr.CommonPayload.PayloadUUID ++ " not processed")) w, .ok ())) fun _ =>
      installPayloadsM env pid (done ++ [pr]) todo := by
  cases pr
  cases hp
  rfl

/-- The whole payload loop preserves the stores: no keychain item, no
payload reference and no profile document is created or destroyed by
payload installation, and the device scope is unchanged. -/
theorem storesEq_installPayloadsM (env : Env) (pid : String) :
    ∀ (todo done : List PayloadAndResult) (w : World),
      StoresEq w (installPayloadsM env pid done todo w).1 := by
  intro todo
  induction todo with
  | nil => intro done w; exact storesEq_refl w
  | cons pr todo ih =>
    intro done w
    cases hp : pr.payload with
    | scep pl =>
      rw [installPayloadsM_cons_scep env pid done pr todo pl hp]
      refine mbind_stores _ _ (storesEq_installSCEPPayloadM env pid pl) (fun res w1 => ?_) w
      by_cases hres : res = ""
      · rw [if_pos hres]
        exact storesEq_refl w1
      · rw [if_neg hres]
        exact ih _ w1
    | mdm pl =>
      rw [installPayloadsM_cons_mdm env pid done pr todo pl hp]
      split
      · exact storesEq_refl w
      · split
        · exact storesEq_refl w
        · refine mbind_stores _ _ (fun w1 => ⟨rfl, rfl, rfl, rfl⟩) (fun _ w1 => ?_) w
          refine mbind_stores _ _ (fun w2 => storesEq_logEvent _ w2) (fun _ w2 => ?_) w1
          exact mbind_stores _ _ (storesEq_installMDMPayloadM env pl pid)
            (fun _ w3 => ih _ w3) w2
    | other pl =>
      rw [installPayloadsM_cons_other env pid done pr todo pl hp]
      exact mbind_stores _ _ (fun w1 => storesEq_logEvent _ w1) (fun _ w1 => ih _ w1) w

/-- **C4**: when validation (and the prelude) succeeds but a later step
of the install pass fails, the pass returns that error, the profiles
bucket is exactly as the payload loop found it — the new document is
not persisted and nothing is rolled back: every keychain item and every
payload-reference record present when the loop started is still present
at the end; the document is persisted (under the device scope and its
identifier) only when every payload succeeded. -/
theorem claim_C4_noRollbackOnFailure (env : Env) (p : Profile) (w wr w' : World)
    (r : Except String Unit) (e : String)
    (hpre : installPreludeM env p false w = (wr, .ok ()))
    (hcore : installCoreM env p wr = (w', r)) :
    installProfileM env p false w = (w', r) ∧
    (r = .error e →
      w'.profiles = wr.profiles ∧
      (∀ k v, alookup wr.keychain k = some v → alookup w'.keychain k = some v) ∧
      (∀ k v, alookup wr.refs k = some v → alookup w'.refs k = some v)) ∧
    (r = .ok () →
      alookup w'.profiles (profileKey wr.device.UDID p.PayloadIdentifier) = some p) := by
  refine ⟨by rw [installProfileM, mbind_ok _ _ _ _ _ hpre, hcore], ?_, ?_⟩
  · intro hr
    subst hr
    rw [installCoreM] at hcore
    cases hloop : installPayloadsM env p.PayloadIdentifier []
        (classifyAndSortProfilePayloads p false) wr with
    | mk wl rl =>
      cases rl with
      | ok u =>
        cases u
        rw [mbind_ok _ _ _ _ _ hloop] at hcore
        simp [persistProfileM] at hcore
      | error e' =>
        rw [mbind_err _ _ _ _ _ hloop] at hcore
        have hw : wl = w' := congrArg Prod.fst hcore
        subst hw
        have hst := storesEq_installPayloadsM env p.PayloadIdentifier
          (classifyAndSortProfilePayloads p false) [] wr
        rw [hloop] at hst
        refine ⟨hst.2.2.1, ?_, ?_⟩
        · intro k v hv
          rw [hst.1]
          exact hv
        · intro k v hv
          rw [hst.2.1]
          exact hv
  · intro hr
    subst hr
    rw [installCoreM] at hcore
    cases hloop : installPayloadsM env p.PayloadIdentifier []
        (classifyAndSortProfilePayloads p false) wr with
    | mk wl rl =>
      cases rl with
      | error e' =>
        rw [mbind_err _ _ _ _ _ hloop] at hcore
        simp at hcore
      | ok u =>
        cases u
        rw [mbind_ok _ _ _ _ _ hloop] at hcore
        have hst := storesEq_installPayloadsM env p.PayloadIdentifier
          (classifyAndSortProfilePayloads p false) [] wr
        rw [hloop] at hst
        have hw : (persistProfileM p p.PayloadIdentifier wl).1 = w' :=
          congrArg Prod.fst hcore
        rw [← hw]
        show alookup (aset wl.profiles (profileKey wl.device.UDID p.PayloadIdentifier) p)
          (profileKey wr.device.UDID p.PayloadIdentifier) = some p
        rw [show wr.device.UDID = wl.device.UDID from hst.2.2.2.symm]
        exact alookup_aset_self _ _ _

/-- Witness for C4: on the fresh world, the SCEP-payload profile's
install pass fails after a successful prelude, the document is not
stored and nothing changed in the stores. -/
theorem claim_C4_noRollbackOnFailure_witness :
    installProfileM exEnv exScepProfile false exFreshWorld =
      ({ exFreshWorld with events := [.logged "reusing existing (pending?) uuid "] },
        .error "no result from scep payload install") ∧
    ({ exFreshWorld with
        events := [.logged "reusing existing (pending?) uuid "] } : World).profiles =
      exFreshWorld.profiles := by
  have h := claim_C4_noRollbackOnFailure exEnv exScepProfile exFreshWorld exFreshWorld
    { exFreshWorld with events := [.logged "reusing existing (pending?) uuid "] }
    (.error "no result from scep payload install") "no result from scep payload install"
    (by decide) (by decide)
  exact ⟨h.1, (h.2.1 rfl).1⟩

/-! ### Stable-sort ordering lemmas -/

/-- With `ascending = false` the source sorts ascending by capability
flags (the comparator is `<`). -/
theorem classifyAndSort_false_eq (q : Profile) :
    classifyAndSortProfilePayloads q false =
      sortSliceStable (fun a b => decide (a.PayloadRequiresFlags < b.PayloadRequiresFlags))
        (q.PayloadContent.map classifyPayload) := rfl

/-- Membership in a stable insertion. -/
theorem mem_insertStable {α : Type} (less : α → α → Bool) (x y : α) (l : List α)
    (h : y ∈ insertStable less x l) : y = x ∨ y ∈ l := by
  induction l with
  | nil => simpa [insertStable] using h
  | cons hd tl ih =>
    by_cases hc : less x hd
    · rw [insertStable, if_pos hc, List.mem_cons] at h
      rcases h with h | h
      · exact Or.inl h
      · exact Or.inr h
    · rw [insertStable, if_neg hc, List.mem_cons] at h
      rcases h with h | h
      · exact Or.inr (by simp [h])
      · rcases ih h with h' | h'
        · exact Or.inl h'
        · exact Or.inr (by simp [h'])

/-- The stable sort permutes: every output element is an input element. -/
theorem mem_sortSliceStable {α : Type} (less : α → α → Bool) (y : α) (l : List α)
    (h : y ∈ sortSliceStable less l) : y ∈ l := by
  induction l generalizing y with
  | nil => simpa [sortSliceStable] using h
  | cons hd tl ih =>
    rw [sortSliceStable] at h
    rcases mem_insertStable less hd y _ h with h' | h'
    · simp [h']
    · exact List.mem_cons_of_mem hd (ih y h')

/-- Stable insertion by `<` on flags preserves being sorted by `≤`. -/
theorem pairwise_insertStable (x : PayloadAndResult) (l : List PayloadAndResult)
    (h : l.Pairwise (fun a b => a.PayloadRequiresFlags ≤ b.PayloadRequiresFlags)) :
    (insertStable (fun a b => decide (a.PayloadRequiresFlags < b.PayloadRequiresFlags)) x
        l).Pairwise (fun a b => a.PayloadRequiresFlags ≤ b.PayloadRequiresFlags) := by
  induction l with
  | nil => simp [insertStable]
  | cons hd tl ih =>
    rw [List.pairwise_cons] at h
    by_cases hc : x.PayloadRequiresFlags < hd.PayloadRequiresFlags
    · rw [insertStable, if_pos (by simpa using hc)]
      refine List.Pairwise.cons ?_ (List.Pairwise.cons h.1 h.2)
      intro y hy
      rw [List.mem_cons] at hy
      rcases hy with hy | hy
      · subst hy
        omega
      · have := h.1 y hy
        omega
    · rw [insertStable, if_neg (by simpa using hc)]
      refine List.Pairwise.cons ?_ (ih h.2)
      intro y hy
      rcases mem_insertStable _ _ _ _ hy with h' | h'
      · subst h'
        omega
      · exact h.1 y h'

/-- The install-order sort produces a list sorted by capability flags. -/
theorem pairwise_sortSliceStable (l : List PayloadAndResult) :
    (sortSliceStable (fun a b => decide (a.PayloadRequiresFlags < b.PayloadRequiresFlags))
        l).Pairwise (fun a b => a.PayloadRequiresFlags ≤ b.PayloadRequiresFlags) := by
  induction l with
  | nil => simp [sortSliceStable]
  | cons hd tl ih =>
    rw [sortSliceStable]
    exact pairwise_insertStable hd _ ih

/-- Classification pins the flags: MDM records carry 3, SCEP records 1. -/
theorem classifyPayload_flags (r : PayloadAndResult) (l : List ProfilePayload)
    (hr : r ∈ l.map classifyPayload) :
    (∀ m, r.payload = .mdm m → r.PayloadRequiresFlags = 3) ∧
    (∀ s, r.payload = .scep s → r.PayloadRequiresFlags = 1) := by
  rw [List.mem_map] at hr
  obtain ⟨pp, _, hpp⟩ := hr
  subst hpp
  cases pp <;> simp [classifyPayload, PayloadRequiresNetwork, PayloadRequiresIdentities]

/-- The Enroll transition on a SignMessage payload with succeeding
checkin calls: Authenticate, TokenUpdate, then record the profile id. -/
theorem enroll2M_run_ok (env : Env) (c : MDMClient) (pld : MDMPayload) (pid : String) (w : World)
    (hc : c.payload = some pld) (hs : ¬ pld.SignMessage = false)
    (ha : env.authenticateResult = .ok ()) (ht : env.tokenUpdateResult = .ok ()) :
    enroll2M env c pid w =
      ({ logEvent .tokenUpdateCall (logEvent .authenticateCall w) with
         device := { (logEvent .tokenUpdateCall (logEvent .authenticateCall w)).device with
                     MDMProfileIdentifier := pid } }, .ok ()) := by
  obtain ⟨pay, ik, ic⟩ := c
  cases hc
  unfold enroll2M
  show (if pld.SignMessage = false then mErr "non-SignMessage (mTLS) enrollment not supported"
    else mbind (authenticateM env) fun _ =>
      mbind (tokenUpdateM env) fun _ w =>
        ({ w with device := { w.device with MDMProfileIdentifier := pid } }, .ok ())) w = _
  rw [if_neg hs]
  rw [mbind_ok _ _ _ _ _ (show authenticateM env w = (logEvent .authenticateCall w, .ok ())
    from by unfold authenticateM; rw [ha])]
  rw [mbind_ok _ _ _ _ _ (show tokenUpdateM env (logEvent .authenticateCall w) =
      (logEvent .tokenUpdateCall (logEvent .authenticateCall w), .ok ())
    from by unfold tokenUpdateM; rw [ht])]

/-- **C3**: payload install ordering is capability-driven, not
document-order, and the MDM step resolves the SCEP payload's result.
(a) In every install-sorted profile no MDM record precedes a SCEP
record; (b) the scenario profile declaring MDM before SCEP sorts to
SCEP first; (c) the MDM installation step fails at resolution exactly
when the referenced record is absent or carries no result; (d) with the
SCEP payload's identity present in the stores, installing the
reverse-declared profile succeeds end to end, records the resolved
Identity-UUID on the device and persists the document. -/
theorem claim_C3_orderingAndResolution
    (env : Env) (w : World) (pid u : String)
    (sp : SCEPPayload) (mp : MDMPayload) (k : RSAKey) (csr : CSR)
    (kid kk kc : KeychainItem)
    (hunenrolled : w.device.MDMProfileIdentifier = "")
    (hnotinstalled : matchedUUID (listUUIDs w) pid = "")
    (hkey : keyFromSCEPProfilePayload sp = .ok k)
    (hcsr : csrFromSCEPProfilePayload sp w.device = .ok csr)
    (href : alookup w.refs (refKey pid sp.Payload "keychain_identity") = some u)
    (hu : u ≠ "")
    (hid : alookup w.keychain u = some kid) (hidc : kid.Class = .identity)
    (hk : alookup w.keychain kid.IdentityKeyUUID = some kk) (hkc : kk.Class = .key)
    (hc : alookup w.keychain kid.IdentityCertificateUUID = some kc) (hcc : kc.Class = .certificate)
    (hmref : mp.IdentityCertificateUUID = sp.Payload.PayloadUUID)
    (hsign : mp.SignMessage = true)
    (hauth : env.authenticateResult = .ok ()) (htok : env.tokenUpdateResult = .ok ()) :
    (∀ (q : Profile) (i j : Nat) (hi : i < (classifyAndSortProfilePayloads q false).length)
        (hj : j < (classifyAndSortProfilePayloads q false).length), i < j →
      ∀ (m : MDMPayload) (s : SCEPPayload),
        ((classifyAndSortProfilePayloads q false).get ⟨i, hi⟩).payload = .mdm m →
        ((classifyAndSortProfilePayloads q false).get ⟨j, hj⟩).payload = .scep s → False) ∧
    classifyAndSortProfilePayloads ⟨pid, [.mdm mp, .scep sp]⟩ false =
      [classifyPayload (.scep sp), classifyPayload (.mdm mp)] ∧
    (∀ (done todo : List PayloadAndResult) (pr : PayloadAndResult) (mp' : MDMPayload)
        (w1 : World), pr.payload = .mdm mp' →
      (findpayloadAndResultByUUID (done ++ pr :: todo) mp'.IdentityCertificateUUID = none →
        installPayloadsM env pid done (pr :: todo) w1 =
          (w1, .error ("could not find payload UUID " ++ mp'.IdentityCertificateUUID))) ∧
      (∀ ref, findpayloadAndResultByUUID (done ++ pr :: todo) mp'.IdentityCertificateUUID =
          some ref → ref.StringResult = "" →
        installPayloadsM env pid done (pr :: todo) w1 =
          (w1, .error "referenced identity payload has no result keychain ID"))) ∧
    (installProfileM env ⟨pid, [.mdm mp, .scep sp]⟩ false w).2 = .ok () ∧
    (installProfileM env ⟨pid, [.mdm mp, .scep sp]⟩ false w).1.device.MDMIdentityKeychainUUID =
      u ∧
    (installProfileM env ⟨pid, [.mdm mp, .scep sp]⟩ false w).1.device.MDMProfileIdentifier =
      pid ∧
    alookup (installProfileM env ⟨pid, [.mdm mp, .scep sp]⟩ false w).1.profiles
      (profileKey w.device.UDID pid) = some ⟨pid, [.mdm mp, .scep sp]⟩ := by
  refine ⟨?_, ?_, ?_, ?_⟩
  · intro q i j hi hj hij m s hm hs
    have hp : (classifyAndSortProfilePayloads q false).Pairwise
        (fun a b => a.PayloadRequiresFlags ≤ b.PayloadRequiresFlags) :=
      pairwise_sortSliceStable (q.PayloadContent.map classifyPayload)
    have hle := List.pairwise_iff_get.mp hp ⟨i, hi⟩ ⟨j, hj⟩ hij
    have hmem_i : ((classifyAndSortProfilePayloads q false).get ⟨i, hi⟩) ∈
        q.PayloadContent.map classifyPayload := by
      have hg : ((classifyAndSortProfilePayloads q false).get ⟨i, hi⟩) ∈
          classifyAndSortProfilePayloads q false := List.get_mem _ _ _
      exact mem_sortSliceStable
        ((fun a b => decide (a.PayloadRequiresFlags < b.PayloadRequiresFlags)) :
          PayloadAndResult → PayloadAndResult → Bool) _
        (q.PayloadContent.map classifyPayload) hg
    have hmem_j : ((classifyAndSortProfilePayloads q false).get ⟨j, hj⟩) ∈
        q.PayloadContent.map classifyPayload := by
      have hg : ((classifyAndSortProfilePayloads q false).get ⟨j, hj⟩) ∈
          classifyAndSortProfilePayloads q false := List.get_mem _ _ _
      exact mem_sortSliceStable
        ((fun a b => decide (a.PayloadRequiresFlags < b.PayloadRequiresFlags)) :
          PayloadAndResult → PayloadAndResult → Bool) _
        (q.PayloadContent.map classifyPayload) hg
    have h3 := (classifyPayload_flags _ _ hmem_i).1 m hm
    have h1 := (classifyPayload_flags _ _ hmem_j).2 s hs
    omega
  · rw [classifyAndSort_false_eq]
    simp [sortSliceStable, insertStable, classifyPayload,
      PayloadRequiresNetwork, PayloadRequiresIdentities]
  · intro done todo pr mp' w1 hpr
    constructor
    · intro hnone
      rw [installPayloadsM_cons_mdm env pid done pr todo mp' hpr]
      simp only [hnone]
      rfl
    · intro ref hsome hres
      rw [installPayloadsM_cons_mdm env pid done pr todo mp' hpr]
      simp only [hsome]
      rw [if_pos hres]
      rfl
  · set p : Profile := ⟨pid, [.mdm mp, .scep sp]⟩ with hp
    have hval : ValidateProfileInstallM p false w = (w, .ok ()) := by
      simp [ValidateProfileInstallM, Profile.MDMPayloads, hunenrolled, hp]
    have hpre : installPreludeM env p false w = (w, .ok ()) := by
      rw [installPreludeM, mbind_ok _ _ _ _ _ hval,
        mbind_ok _ _ _ _ _ (rfl : listUUIDsM w = (w, .ok (listUUIDs w)))]
      simp [hp, hnotinstalled, mOk]
    have hsort : classifyAndSortProfilePayloads p false =
        [classifyPayload (.scep sp), classifyPayload (.mdm mp)] := by
      rw [classifyAndSort_false_eq]
      simp [sortSliceStable, insertStable, classifyPayload,
        PayloadRequiresNetwork, PayloadRequiresIdentities, hp]
    have hscep : installSCEPPayloadM env pid sp w =
        (logEvent (.logged ("reusing existing (pending?) uuid " ++ u)) w, .ok u) := by
      rw [installSCEPPayloadM_run]
      simp only [hkey, hcsr, href, Option.getD]
    set w1 : World := logEvent (.logged ("reusing existing (pending?) uuid " ++ u)) w with hw1
    set scepDone : PayloadAndResult := { classifyPayload (.scep sp) with StringResult := u }
      with hsd
    have hfind : findpayloadAndResultByUUID ([scepDone] ++ [classifyPayload (.mdm mp)])
        mp.IdentityCertificateUUID = some scepDone := by
      simp [findpayloadAndResultByUUID, hsd, classifyPayload, hmref]
    set w2 : World := { w1 with device := { w1.device with MDMIdentityKeychainUUID := u } }
      with hw2
    set w3 : World := logEvent .deviceSaved w2 with hw3
    have hload : loadIdentityFromKeychainM u w3 = (w3, .ok (kk.Key, kc.Certificate)) := by
      unfold loadIdentityFromKeychainM
      rw [if_neg hu]
      rw [mbind_ok _ _ _ _ _ (LoadKeychainItem_ok w3 u kid hid
        (by show ¬(kid.Class = KCClass.identity ∧
              (alookup w.keychain kid.IdentityKeyUUID = none ∨
               alookup w.keychain kid.IdentityCertificateUUID = none))
            simp [hk, hc]))]
      rw [mbind_ok _ _ _ _ _ (LoadKeychainItem_ok w3 kid.IdentityKeyUUID kk hk
        (by show ¬(kk.Class = KCClass.identity ∧ _)
            simp [hkc]))]
      rw [mbind_ok _ _ _ _ _ (LoadKeychainItem_ok w3 kid.IdentityCertificateUUID kc hc
        (by show ¬(kc.Class = KCClass.identity ∧ _)
            simp [hcc]))]
      rfl
    have hclient : newMDMClientUsingPayloadM mp w3 =
        (w3, .ok { payload := some mp, identityKey := kk.Key, identityCert := kc.Certificate }) := by
      unfold newMDMClientUsingPayloadM
      rw [show w3.device.MDMIdentityKeychainUUID = u from rfl]
      rw [mbind_ok _ _ _ _ _ hload]
      rfl
    set w6 : World := { logEvent .tokenUpdateCall (logEvent .authenticateCall w3) with
      device := { (logEvent .tokenUpdateCall (logEvent .authenticateCall w3)).device with
                  MDMProfileIdentifier := pid } } with hw6
    have henroll : enroll2M env
        { payload := some mp, identityKey := kk.Key, identityCert := kc.Certificate } pid w3 =
        (w6, .ok ()) := by
      rw [enroll2M_run_ok env _ mp pid w3 rfl (by simp [hsign]) hauth htok]
    have hmdmi : installMDMPayloadM env mp pid w3 = (logEvent .deviceSaved w6, .ok ()) := by
      unfold installMDMPayloadM
      rw [mbind_ok _ _ _ _ _ hclient, mbind_ok _ _ _ _ _ henroll]
      rfl
    set w7 : World := logEvent .deviceSaved w6 with hw7
    have hloop : installPayloadsM env pid [] (classifyAndSortProfilePayloads p false) w =
        (w7, .ok ()) := by
      rw [hsort]
      rw [installPayloadsM_cons_scep env pid [] _ _ sp rfl]
      rw [mbind_ok _ _ _ _ _ hscep]
      rw [if_neg hu]
      rw [installPayloadsM_cons_mdm env pid _ _ _ mp rfl]
      simp only [List.nil_append]
      simp only [hfind]
      rw [if_neg (show ¬(scepDone.StringResult = "") from hu)]
      rw [mbind_ok _ _ _ _ _ rfl]
      rw [mbind_ok _ _ _ _ _ rfl]
      rw [mbind_ok _ _ _ _ _ hmdmi]
      rfl
    have hcore : installCoreM env p w =
        ({ w7 with profiles := aset w7.profiles (profileKey w7.device.UDID p.PayloadIdentifier) p }, .ok ()) := by
      rw [installCoreM]
      rw [mbind_ok _ _ _ _ _ hloop]
      rfl
    have hrun : installProfileM env p false w =
        ({ w7 with profiles := aset w7.profiles (profileKey w7.device.UDID p.PayloadIdentifier) p }, .ok ()) := by
      rw [installProfileM, mbind_ok _ _ _ _ _ hpre, hcore]
    rw [hrun]
    refine ⟨rfl, rfl, rfl, ?_⟩
    show alookup (aset w7.profiles (profileKey w7.device.UDID p.PayloadIdentifier) p)
      (profileKey w.device.UDID pid) = some p
    exact alookup_aset_self _ _ _

/-- Witness for C3: installing the reverse-declared MDM+SCEP profile on
the example chain world succeeds, resolves `uuid-9`, enrolls, and the
sort puts the SCEP record first. -/
theorem claim_C3_orderingAndResolution_witness :
    (installProfileM exEnv ⟨"com.example.profile", [.mdm exMdm, .scep exScep]⟩ false
      exChainWorld).2 = .ok () ∧
    (installProfileM exEnv ⟨"com.example.profile", [.mdm exMdm, .scep exScep]⟩ false
      exChainWorld).1.device.MDMIdentityKeychainUUID = "uuid-9" ∧
    (installProfileM exEnv ⟨"com.example.profile", [.mdm exMdm, .scep exScep]⟩ false
      exChainWorld).1.device.MDMProfileIdentifier = "com.example.profile" ∧
    classifyAndSortProfilePayloads ⟨"com.example.profile", [.mdm exMdm, .scep exScep]⟩ false =
      [classifyPayload (.scep exScep), classifyPayload (.mdm exMdm)] := by
  have h := claim_C3_orderingAndResolution exEnv exChainWorld "com.example.profile" "uuid-9"
    exScep exMdm ⟨1024⟩
    { challengePassword := "", country := [], locality := [], province := [],
      organization := [], organizationalUnit := [], commonName := "pid.scep",
      keyUsageExtension :=
        { oid := [2, 5, 29, 15], critical := true, bytes := [128], bitLength := 1 } }
    exIdentityItem exKeyItem exCertItem
    (by decide) (by decide) (by decide) (by decide) (by decide) (by decide) (by decide)
    (by decide) (by decide) (by decide) (by decide) (by decide) (by decide) (by decide)
    (by decide) (by decide)
  exact ⟨h.2.2.2.1, h.2.2.2.2.1, h.2.2.2.2.2.1, h.2.1⟩

/-- Validation with `fromMDM = false` only reads: the world component
of its result is the input world. -/
theorem ValidateProfileInstallM_false_fst (p : Profile) (w : World) :
    (ValidateProfileInstallM p false w).1 = w := by
  simp only [ValidateProfileInstallM]
  by_cases h1 : p.MDMPayloads.length ≥ 1
  · rw [if_pos h1]
    by_cases h2 : p.MDMPayloads.length > 1
    · rw [if_pos h2]
    · rw [if_neg h2]
      by_cases h3 : (True ∧ w.device.MDMProfileIdentifier ≠ "")
      · rw [if_pos h3]
      · rw [if_neg h3]
        rfl
  · rw [if_neg h1]

/-- **C10**: when a profile with the same identifier is already
installed, `installProfile` runs the removal pass and discards its
outcome entirely: whatever state and result `(wr, r)` the removal pass
produced — error or not — the install pass continues as the core
install from `wr`. -/
theorem claim_C10_removalErrorDiscarded (env : Env) (p : Profile) (w wr : World)
    (r : Except String Unit)
    (hval : (ValidateProfileInstallM p false w).2 = .ok ())
    (hmatched : matchedUUID (listUUIDs w) p.PayloadIdentifier ≠ "")
    (hrm : RemoveProfileM env (matchedUUID (listUUIDs w) p.PayloadIdentifier) w = (wr, r)) :
    installProfileM env p false w = installCoreM env p wr := by
  have hv : ValidateProfileInstallM p false w = (w, .ok ()) := by
    rw [show ValidateProfileInstallM p false w =
      ((ValidateProfileInstallM p false w).1, (ValidateProfileInstallM p false w).2) from rfl,
      ValidateProfileInstallM_false_fst, hval]
  have hpre : installPreludeM env p false w = (wr, .ok ()) := by
    rw [installPreludeM, mbind_ok _ _ _ _ _ hv,
      mbind_ok _ _ _ _ _ (rfl : listUUIDsM w = (w, .ok (listUUIDs w)))]
    rw [if_pos hmatched]
    simp only [hrm]
  rw [installProfileM, mbind_ok _ _ _ _ _ hpre]

/-- Witness for C10: on a world where the installed profile's SCEP
identity is missing from the keychain, the removal of that identity
fails (the not-found error is swallowed and logged) and installation of
the new profile still proceeds — and succeeds. -/
theorem claim_C10_removalErrorDiscarded_witness :
    (removeSCEPPayloadM "com.example.profile" exScep exInstalledWorld).2 =
      .error "keychain item not found: uuid-9" ∧
    installProfileM exEnv exScepProfile false exInstalledWorld =
      installCoreM exEnv exScepProfile
        (RemoveProfileM exEnv "com.example.profile" exInstalledWorld).1 ∧
    (installProfileM exEnv exScepProfile false exInstalledWorld).2 = .ok () ∧
    (installProfileM exEnv exScepProfile false exInstalledWorld).1.events =
      [.logged "keychain item not found: uuid-9",
       .logged "reusing existing (pending?) uuid uuid-9"] := by
  refine ⟨by decide, ?_, by decide, by decide⟩
  exact claim_C10_removalErrorDiscarded exEnv exScepProfile exInstalledWorld
    (RemoveProfileM exEnv "com.example.profile" exInstalledWorld).1
    (RemoveProfileM exEnv "com.example.profile" exInstalledWorld).2
    (by decide) (by decide) rfl

end Mdmb
